import Mathlib

/-!
Verification development for the MTDevKit MCP server (`src/index.ts`).

The TypeScript source is shallowly embedded here.  Strings are modelled as
`List Char` (called `Str`): every string literal of the source is transcribed
verbatim (braces inside Lean string literals are written with the `\x7b`/`\x7d`
escapes, which denote the same characters).  The `create_flutter_project`
tool handler is embedded as a pure state-passing function: filesystem reads go
through an explicit `FS` value, and every side effect (executable probe,
process spawn, file write, directory creation) is recorded in an effects
trace.  The outcome of each external child process is supplied by an oracle
(`Ctx.oracle`), and the filesystem contents materialised by the external
template-cloning tool of step 2 are supplied by `Ctx.cloned` /
`Ctx.cloneContent`; both describe the environment, not the program.
`node:path` `join parent name` is modelled as `parent ++ "/" ++ name`
(the project name is a single path segment, so no normalisation occurs).
-/

abbrev Str := List Char

/-- Coerce a Lean string literal to the `List Char` representation. -/
def str (s : String) : Str := s.data

/-- One filesystem: which paths exist, and the text content of each path. -/
structure FS where
  pathExists : Str → Bool
  content : Str → Str

/-- Observable side effects of the handler, in program order.
`probe c` is a read-only `which c` lookup (from `detectFvm` / `commandExists`);
`spawn` is an external child process run by `run`; `fsWrite`/`fsMkdir` are
`writeFileSync`/`mkdirSync`. -/
inductive Effect where
  | probe (cmd : Str)
  | spawn (cmd : Str) (args : List Str) (cwd : Option Str) (extraEnv : List (Str × Str))
  | fsWrite (path : Str) (text : Str)
  | fsMkdir (path : Str)
deriving DecidableEq

/-- Handler state: the accumulated progress log (`log.push` in the source),
the filesystem, the effect trace, and the number of child processes run so
far (the index into the success oracle). -/
structure St where
  log : List Str
  fs : FS
  effects : List Effect
  k : Nat

/-- A thrown `Error`: its message plus the state at the throw site (the
`catch` branch of the handler reads the log accumulated so far). -/
structure Fail where
  msg : Str
  st : St

abbrev Res := Except Fail St

/-- The state carried by a result, error or not. -/
def resSt : Res → St
  | .ok s => s
  | .error f => f.st

/-- The error message carried by a result, if any. -/
def resErr : Res → Option Str
  | .ok _ => none
  | .error f => some f.msg

def bindR (r : Res) (f : St → Res) : Res :=
  match r with
  | .error e => .error e
  | .ok s => f s

def mapR (r : Res) (f : St → St) : Res :=
  match r with
  | .error e => .error e
  | .ok s => .ok (f s)

/-- `log.push msg`. -/
def push (m : Str) (s : St) : St :=
  { s with log := s.log ++ [m] }

def addEff (e : Effect) (s : St) : St :=
  { s with effects := s.effects ++ [e] }

def throwE (m : Str) (s : St) : Res := .error ⟨m, s⟩

def okS (s : St) : Res := .ok s

/-- `writeFileSync path text` (whole-file replace; the path exists afterwards). -/
def doWrite (p t : Str) (s : St) : St :=
  { s with
    fs := { pathExists := fun q => if q = p then true else s.fs.pathExists q,
            content := fun q => if q = p then t else s.fs.content q },
    effects := s.effects ++ [.fsWrite p t] }

/-- `mkdirSync path (recursive)`. -/
def doMkdir (p : Str) (s : St) : St :=
  { s with
    fs := { pathExists := fun q => if q = p then true else s.fs.pathExists q,
            content := s.fs.content },
    effects := s.effects ++ [.fsMkdir p] }

/-- Mark a single path as existing (used for the `.git` directory created by
`git init`, the one external filesystem effect the handler later reads). -/
def setPath (p : Str) (fs : FS) : FS :=
  { pathExists := fun q => if q = p then true else fs.pathExists q,
    content := fs.content }

/-- Environment and request context of one `create_flutter_project` call.
`fvm`, `git`, `flutter`, `expectAvail` are the results the `which` probes
would report; `oracle i` tells whether the `i`-th child process exits 0 and
`oracleOut i` is the diagnostic text of a failing child; `cloned rel` /
`cloneContent rel` describe which relative paths (and contents) the step-2
template-cloning tool materialises below the project directory. -/
structure Ctx where
  name : Str
  org : Str
  template : Str
  parentDir : Str
  dryRun : Bool
  fvm : Bool
  git : Bool
  flutter : Bool
  expectAvail : Bool
  oracle : Nat → Bool
  oracleOut : Nat → Str
  cloned : Str → Bool
  cloneContent : Str → Str

/-- `join(parentDir, name)`. -/
def projectDir (c : Ctx) : Str := c.parentDir ++ str "/" ++ c.name

-- ─── Constants and small pure helpers of the source ──────────────────

def DEFAULT_TEMPLATE : Str :=
  str "https://bitbucket.org/mtinnovation/flutter_clean_template_2025"

def TOTAL_STEPS : Nat := 11

/-- The accepted name shape `[a-z][a-z0-9_]*` (`DART_PACKAGE_NAME_RE`). -/
def isLowerAlpha (c : Char) : Bool := 'a' ≤ c && c ≤ 'z'

def isDigitCh (c : Char) : Bool := '0' ≤ c && c ≤ '9'

def validName (s : Str) : Bool :=
  match s with
  | [] => false
  | c :: cs => isLowerAlpha c && cs.all (fun d => isLowerAlpha d || isDigitCh d || d = '_')

/-- `fvmCmd`: prefix a command with `fvm` when available. -/
def fvmCmd (useFvm : Bool) (cmd : Str) : Str :=
  if useFvm then str "fvm" else cmd

/-- `fvmArgs`. -/
def fvmArgs (useFvm : Bool) (cmd : Str) (args : List Str) : List Str :=
  if useFvm then cmd :: args else args

/-- `args.join(" ")`. -/
def joinSp (xs : List Str) : Str := List.intercalate (str " ") xs

/-- `log.join("\n")`. -/
def joinNl (xs : List Str) : Str := List.intercalate (str "\n") xs

/-- `stepMsg`: format a step progress line. -/
def stepMsg (n : Nat) (msg : Str) : Str :=
  str "[" ++ (Nat.repr n).data ++ str "/" ++ (Nat.repr TOTAL_STEPS).data ++ str "] " ++ msg

/-- `pkg.split("_")` (JavaScript semantics: `"" ↦ [""]`, empty parts kept). -/
def splitUnd : Str → List Str
  | [] => [[]]
  | c :: cs =>
    let r := splitUnd cs
    if c = '_' then [] :: r
    else
      match r with
      | [] => [[c]]
      | w :: ws => (c :: w) :: ws

/-- `w.charAt(0).toUpperCase() + w.slice(1)`. -/
def capWord : Str → Str
  | [] => []
  | c :: cs => c.toUpper :: cs

/-- `toDisplayName`: `my_super_app ↦ My Super App`. -/
def toDisplayName (pkg : Str) : Str :=
  List.intercalate (str " ") ((splitUnd pkg).map capWord)

/-- `toAppId`: strip underscores (`pkg.replace(/_/g, "")`). -/
def toAppId (pkg : Str) : Str := pkg.filter (fun c => c != '_')

/-- `env.toUpperCase()` (ASCII inputs only in this program). -/
def jsUpper (s : Str) : Str := s.map Char.toUpper

/-- The object literal passed to `JSON.stringify` in `configJson`, as an
ordered key/value list. -/
def configObject (envName : Str) : List (Str × Str) :=
  [(str "secretKey", jsUpper envName),
   (str "baseUrl", str ""),
   (str "xAPIKey", str ""),
   (str "oneSignalKey", str "")]

/-- `JSON.stringify(obj, null, 2)` for a flat object whose values are plain
strings needing no escaping (the only shape this program passes). -/
def jsonStringify2 (o : List (Str × Str)) : Str :=
  str "\x7b\n" ++
    List.intercalate (str ",\n")
      (o.map (fun kv => str "  \"" ++ kv.1 ++ str "\": \"" ++ kv.2 ++ str "\"")) ++
  str "\n\x7d"

/-- `configJson`. -/
def configJson (envName : Str) : Str := jsonStringify2 (configObject envName)

-- ─── runInteractive: the expect script and its prompt matcher ────────

/-- Quote an argument containing a space (`a.includes(" ") ? `"${a}"` : a`). -/
def quoteArg (a : Str) : Str :=
  if a.contains ' ' then str "\"" ++ a ++ str "\"" else a

/-- `[command, ...args].map(quote).join(" ")`. -/
def fullCmdOf (command : Str) (args : List Str) : Str :=
  joinSp ((command :: args).map quoteArg)

/-- The lines of the `expect` script constructed by `runInteractive`
(strategy 1), exactly as in the source. -/
def expectScriptLines (fc : Str) : List Str :=
  [str "set timeout 300",
   str "spawn " ++ fc,
   str "expect \x7b",
   str "  -re \x7b\\(Y/n\\)|\\(y/N\\)|\\[Y/n\\]|\\[y/N\\]|proceed\x7d \x7b send \"y\\r\"; exp_continue \x7d",
   str "  timeout \x7b exit 1 \x7d",
   str "  eof",
   str "\x7d",
   str "lassign [wait] pid spawnid os_error_flag value",
   str "exit $value"]

/-- The script text: the lines joined with newlines (`.join("\n")`). -/
def expectScriptFor (fc : Str) : Str := joinNl (expectScriptLines fc)

/-- Does `pat` occur at the head of `l`? -/
def headMatch : Str → Str → Bool
  | _, [] => true
  | [], _ :: _ => false
  | c :: cs, p :: ps => (c == p) && headMatch cs ps

/-- Does `pat` occur anywhere in `l`? -/
def hasSub : Str → Str → Bool
  | [], pat => pat.isEmpty
  | c :: t, pat => headMatch (c :: t) pat || hasSub t pat

/-- The five interactive-confirmation patterns of the script's Tcl regular
expression `\(Y/n\)|\(y/N\)|\[Y/n\]|\[y/N\]|proceed`, as literal strings. -/
def confirmPatterns : List Str :=
  [str "(Y/n)", str "(y/N)", str "[Y/n]", str "[y/N]", str "proceed"]

/-- Semantics of the script's `-re` pattern on a chunk of child output: a Tcl
regular expression without `-nocase` or `(?i)` is case-sensitive, and this
alternation of literals matches iff one of the five literals occurs in the
text. -/
def scriptMatcher (out : Str) : Bool :=
  confirmPatterns.any (fun p => hasSub out p)

/-- The matcher that the specification describes: a case-insensitive match of
the same five patterns. -/
def ciMatcher (out : Str) : Bool :=
  confirmPatterns.any (fun p => hasSub (jsUpper out) (jsUpper p))

-- ─── Command execution ───────────────────────────────────────────────

def cmdFailMsg (cmd : Str) (args : List Str) (diag : Str) : Str :=
  str "Command failed: " ++ cmd ++ str " " ++ joinSp args ++ str "\n" ++ diag

/-- `run(command, args, cwd?, extraEnv?)`: spawn the child, consult the
oracle for its exit status, apply its (modelled) filesystem effect on
success, throw `Command failed: ...` on non-zero exit. -/
def runCmd (c : Ctx) (cmd : Str) (args : List Str) (cwd : Option Str)
    (extraEnv : List (Str × Str)) (fsEff : FS → FS) (s : St) : Res :=
  let s1 := addEff (.spawn cmd args cwd extraEnv) s
  if c.oracle s1.k then
    okS { s1 with k := s1.k + 1, fs := fsEff s1.fs }
  else
    throwE (cmdFailMsg cmd args (c.oracleOut s1.k)) { s1 with k := s1.k + 1 }

/-- `runInteractive(command, args, cwd?)`: probe for `expect`; with it,
run the scripted pseudo-terminal session; without it, run the command
directly with the `CI=true` and `TERM=dumb` environment hints. -/
def runInteractive (c : Ctx) (cmd : Str) (args : List Str) (cwd : Option Str) (s : St) : Res :=
  let s1 := addEff (.probe (str "expect")) s
  if c.expectAvail then
    runCmd c (str "expect") [str "-c", expectScriptFor (fullCmdOf cmd args)] cwd [] id s1
  else
    runCmd c cmd args cwd [(str "CI", str "true"), (str "TERM", str "dumb")] id s1

-- ─── The generated artifacts ─────────────────────────────────────────

/-- The `flavorizr.yaml` content written by step 6. -/
def flavorizrContent (c : Ctx) : Str :=
  let dn := toDisplayName c.name
  let ai := toAppId c.name
  str "flavors:\n  dev:\n    app:\n      name: \"[DEV] " ++ dn ++
  str "\"\n    android:\n      applicationId: \"" ++ c.org ++ str "." ++ ai ++
  str ".dev\"\n    ios:\n      bundleId: \"" ++ c.org ++ str "." ++ ai ++
  str ".dev\"\n  prod:\n    app:\n      name: \"" ++ dn ++
  str "\"\n    android:\n      applicationId: \"" ++ c.org ++ str "." ++ ai ++
  str "\"\n    ios:\n      bundleId: \"" ++ c.org ++ str "." ++ ai ++
  str "\"\n  uat:\n    app:\n      name: \"[UAT] " ++ dn ++
  str "\"\n    android:\n      applicationId: \"" ++ c.org ++ str "." ++ ai ++
  str ".uat\"\n    ios:\n      bundleId: \"" ++ c.org ++ str "." ++ ai ++
  str ".uat\"\n"

/-- The fixed `proguard-rules.pro` content written by step 11. -/
def proguardContent : Str :=
  str "-ignorewarnings\n-keepattributes *Annotation*\n-keepattributes Exceptions\n-keepattributes InnerClasses\n-keepattributes Signature\n-keep class com.hianalytics.android.**\x7b*;\x7d\n-keep class com.huawei.updatesdk.**\x7b*;\x7d\n-keep class com.huawei.hms.**\x7b*;\x7d\n\n## Flutter wrapper\n-keep class io.flutter.app.** \x7b *; \x7d\n-keep class io.flutter.plugin.**  \x7b *; \x7d\n-keep class io.flutter.util.**  \x7b *; \x7d\n-keep class io.flutter.view.**  \x7b *; \x7d\n-keep class io.flutter.**  \x7b *; \x7d\n-keep class io.flutter.plugins.**  \x7b *; \x7d\n-dontwarn io.flutter.embedding.**\n-keep class com.huawei.hms.flutter.** \x7b *; \x7d\n-keep class androidx.lifecycle.DefaultLifecycleObserver\n-repackageclasses\n"

-- ─── Step 11 gradle edits (the JS regex replaces, specialised) ───────

/-- JavaScript `\s` on the characters this program meets. -/
def isWsChar (c : Char) : Bool :=
  c = ' ' || c = '\t' || c = '\n' || c = '\r' || c = '\x0b' || c = '\x0c'

/-- Consume the literal `pat` from the head of the text. -/
def dropLit : Str → Str → Option Str
  | [], rest => some rest
  | _ :: _, [] => none
  | p :: ps, c :: cs => if c = p then dropLit ps cs else none

/-- Match `compileOptions\s*\{` at the head of the text; returns the rest
after the matched span. -/
def matchCO (cs : Str) : Option Str :=
  match dropLit (str "compileOptions") cs with
  | none => none
  | some r =>
    match r.dropWhile isWsChar with
    | '\x7b' :: r2 => some r2
    | _ => none

/-- Scan to the first occurrence of `"\n    }"`, consuming through it (the
lazy `[\s\S]*?\n    \}` tail of the buildTypes pattern). -/
def findClose : Str → Option Str
  | [] => none
  | c :: t =>
    match dropLit (str "\n    \x7d") (c :: t) with
    | some r => some r
    | none => findClose t

/-- Match `buildTypes\s*\{[\s\S]*?\n    \}` at the head of the text. -/
def matchBT (cs : Str) : Option Str :=
  match dropLit (str "buildTypes") cs with
  | none => none
  | some r =>
    match r.dropWhile isWsChar with
    | '\x7b' :: r2 => findClose r2
    | _ => none

/-- `String.prototype.replace` with a non-global regex: replace the leftmost
match (if any) by the constant `repl`. -/
def replaceFirstAux (m : Str → Option Str) (repl : Str) : Str → Str
  | [] => []
  | c :: t =>
    match m (c :: t) with
    | some rest => repl ++ rest
    | none => c :: replaceFirstAux m repl t

/-- Replacement text of edit (a): the desugaring flag as the first line
inside the compileOptions block. -/
def coRepl : Str :=
  str "compileOptions \x7b\n        isCoreLibraryDesugaringEnabled = true"

/-- Replacement text of edit (b): the fixed debug buildTypes block. -/
def btRepl : Str :=
  str "buildTypes \x7b\n        getByName(\"debug\") \x7b\n            signingConfig = signingConfigs.getByName(\"debug\")\n            isMinifyEnabled = true\n            isShrinkResources = true\n            proguardFiles(\n                getDefaultProguardFile(\"proguard-android.txt\"),\n                \"proguard-rules.pro\"\n            )\n        \x7d\n    \x7d"

/-- Edit (a). -/
def applyCO (t : Str) : Str := replaceFirstAux matchCO coRepl t

/-- Edit (b). -/
def applyBT (t : Str) : Str := replaceFirstAux matchBT btRepl t

/-- `gradle.trimEnd()`. -/
def trimEndL (t : Str) : Str := (t.reverse.dropWhile isWsChar).reverse

/-- The dependencies block appended by edit (c). -/
def depsBlock : Str :=
  str "\n\ndependencies \x7b\n    implementation(\"com.huawei.hms:push:6.11.0.300\")\n    implementation(\"androidx.multidex:multidex:2.0.1\")\n    coreLibraryDesugaring(\"com.android.tools:desugar_jdk_libs:2.1.4\")\n\x7d\n"

/-- Edit (c). -/
def appendDeps (t : Str) : Str := trimEndL t ++ depsBlock

/-- The full step-11 patch: edits (a), (b), (c) in order. -/
def patchGradle (t : Str) : Str := appendDeps (applyBT (applyCO t))

-- ─── Paths derived from the project directory ────────────────────────

def flavorizrPath (c : Ctx) : Str := projectDir c ++ str "/flavorizr.yaml"

def configDirPath (c : Ctx) : Str := projectDir c ++ str "/config"

def gradlePath (c : Ctx) : Str := projectDir c ++ str "/android/app/build.gradle.kts"

def proguardPath (c : Ctx) : Str := projectDir c ++ str "/android/app/proguard-rules.pro"

def gitDirPath (c : Ctx) : Str := projectDir c ++ str "/.git"

def githooksPath (c : Ctx) : Str := projectDir c ++ str "/.githooks"

/-- Filesystem effect of the step-2 template-cloning child process: the
project directory comes to exist, and each relative path reported by
`c.cloned` comes to exist below it with content `c.cloneContent`. -/
def cloneApply (c : Ctx) (fs : FS) : FS :=
  { pathExists := fun p =>
      if p = projectDir c then true
      else
        match dropLit (projectDir c ++ str "/") p with
        | some rel => c.cloned rel || fs.pathExists p
        | none => fs.pathExists p,
    content := fun p =>
      match dropLit (projectDir c ++ str "/") p with
      | some rel => if c.cloned rel then c.cloneContent rel else fs.content p
      | none => fs.content p }

-- ─── The eleven steps ────────────────────────────────────────────────

def activateArgs : List Str :=
  [str "pub", str "global", str "activate", str "app_starter_plus"]

def step1 (c : Ctx) (s : St) : Res :=
  let s1 := push (stepMsg 1 (str "Installing app_starter_plus")) s
  if c.dryRun then
    okS (push (str "✔ app_starter_plus ready")
      (push (str "  [dry-run] " ++ fvmCmd c.fvm (str "dart") ++ str " " ++
        joinSp (fvmArgs c.fvm (str "dart") activateArgs)) s1))
  else
    mapR (runCmd c (fvmCmd c.fvm (str "dart")) (fvmArgs c.fvm (str "dart") activateArgs)
        none [] id s1)
      (push (str "✔ app_starter_plus ready"))

def starterArgs (c : Ctx) : List Str :=
  fvmArgs c.fvm (str "dart")
    ([str "pub", str "global", str "run", str "app_starter_plus:app_starter_plus",
      str "--name", c.name, str "--org", c.org, str "--template", c.template] ++
     (if c.fvm then [str "--fvm"] else []))

def step2 (c : Ctx) (s : St) : Res :=
  let s1 := push (stepMsg 2 (str "Cloning template into " ++ c.name)) s
  if c.dryRun then
    okS (push (str "✔ Template cloned")
      (push (str "  [dry-run] " ++ fvmCmd c.fvm (str "dart") ++ str " " ++
        joinSp (starterArgs c)) s1))
  else
    mapR (runCmd c (fvmCmd c.fvm (str "dart")) (starterArgs c) (some c.parentDir) []
        (cloneApply c) s1)
      (push (str "✔ Template cloned"))

def step3 (c : Ctx) (s : St) : Res :=
  let s1 := push (stepMsg 3 (str "Initialising Git repository")) s
  if c.dryRun then
    okS (push (str "  [dry-run] git config core.hooksPath .githooks/ (if .githooks/ exists)")
      (push (str "  [dry-run] git init (if .git/ does not exist)") s1))
  else
    let afterInit : Res :=
      if s1.fs.pathExists (gitDirPath c) then
        okS (push (str "✔ Git repository already exists") s1)
      else
        mapR (runCmd c (str "git") [str "init"] (some (projectDir c)) []
            (setPath (gitDirPath c)) s1)
          (push (str "✔ Git repository initialised"))
    bindR afterInit (fun s2 =>
      if s2.fs.pathExists (githooksPath c) then
        mapR (runCmd c (str "git") [str "config", str "core.hooksPath", str ".githooks/"]
            (some (projectDir c)) [] id s2)
          (push (str "✔ Git hooks configured (.githooks/)"))
      else
        okS (push (str "⚠ No .githooks/ directory found — skipping hook setup") s2))

def step4 (c : Ctx) (s : St) : Res :=
  let s1 := push (stepMsg 4 (str "Installing Flutter dependencies")) s
  if c.dryRun then
    okS (push (str "✔ Dependencies installed")
      (push (str "  [dry-run] " ++ fvmCmd c.fvm (str "flutter") ++ str " " ++
        joinSp (fvmArgs c.fvm (str "flutter") [str "pub", str "get"])) s1))
  else
    mapR (runCmd c (fvmCmd c.fvm (str "flutter"))
        (fvmArgs c.fvm (str "flutter") [str "pub", str "get"])
        (some (projectDir c)) [] id s1)
      (push (str "✔ Dependencies installed"))

def step5 (c : Ctx) (s : St) : Res :=
  let s1 := push (stepMsg 5 (str "Generating localisations")) s
  if c.dryRun then
    okS (push (str "✔ Localisations generated")
      (push (str "  [dry-run] " ++ fvmCmd c.fvm (str "flutter") ++ str " " ++
        joinSp (fvmArgs c.fvm (str "flutter") [str "gen-l10n"])) s1))
  else
    mapR (runCmd c (fvmCmd c.fvm (str "flutter"))
        (fvmArgs c.fvm (str "flutter") [str "gen-l10n"])
        (some (projectDir c)) [] id s1)
      (push (str "✔ Localisations generated"))

def step6 (c : Ctx) (s : St) : Res :=
  let s1 := push (stepMsg 6 (str "Updating flavorizr.yaml")) s
  if c.dryRun then
    okS (push (str "✔ flavorizr.yaml updated")
      (push (str "  [dry-run] Update flavorizr.yaml with project name & org") s1))
  else
    if s1.fs.pathExists (flavorizrPath c) then
      okS (push (str "✔ flavorizr.yaml updated")
        (doWrite (flavorizrPath c) (flavorizrContent c) s1))
    else
      throwE (str "flavorizr.yaml not found at " ++ flavorizrPath c) s1

def step7 (c : Ctx) (s : St) : Res :=
  let s1 := push (stepMsg 7 (str "Committing all files before flavorizr")) s
  if c.dryRun then
    okS (push (str "✔ All files committed")
      (push (str "  [dry-run] git add -A && git commit") s1))
  else
    bindR (runCmd c (str "git") [str "add", str "-A"] (some (projectDir c)) [] id s1)
      (fun s2 =>
        mapR (runCmd c (str "git")
            [str "commit", str "-m", str "Initial project setup before flavorizr"]
            (some (projectDir c)) [] id s2)
          (push (str "✔ All files committed")))

def step8 (c : Ctx) (s : St) : Res :=
  let s1 := push (stepMsg 8 (str "Generating flavors (flavorizr)")) s
  if c.dryRun then
    okS (push (str "✔ Flavors generated")
      (push (str "  [dry-run] (will use expect for PTY allocation)")
        (push (str "  [dry-run] " ++ fvmCmd c.fvm (str "flutter") ++ str " " ++
          joinSp (fvmArgs c.fvm (str "flutter") [str "pub", str "run", str "flutter_flavorizr"])) s1)))
  else
    mapR (runInteractive c (fvmCmd c.fvm (str "flutter"))
        (fvmArgs c.fvm (str "flutter") [str "pub", str "run", str "flutter_flavorizr"])
        (some (projectDir c)) s1)
      (push (str "✔ Flavors generated"))

def step9 (c : Ctx) (s : St) : Res :=
  let s1 := push (stepMsg 9 (str "Reverting main.dart & app.dart (overwritten by flavorizr)")) s
  if c.dryRun then
    okS (push (str "✔ main.dart & app.dart reverted")
      (push (str "  [dry-run] git checkout -- lib/main.dart lib/app.dart") s1))
  else
    mapR (runCmd c (str "git")
        [str "checkout", str "--", str "lib/main.dart", str "lib/app.dart"]
        (some (projectDir c)) [] id s1)
      (push (str "✔ main.dart & app.dart reverted"))

def step10 (c : Ctx) (s : St) : Res :=
  let s1 := push (stepMsg 10 (str "Creating config files")) s
  if c.dryRun then
    okS (push (str "✔ Config files created (config/app_config_\x7bdev,prod,uat\x7d.json)")
      (push (str "  [dry-run] Write config/app_config_\x7bdev,prod,uat\x7d.json")
        (push (str "  [dry-run] mkdir -p config") s1)))
  else
    let s2 := doMkdir (configDirPath c) s1
    let s3 := doWrite (configDirPath c ++ str "/app_config_dev.json")
      (configJson (str "dev") ++ str "\n") s2
    let s4 := doWrite (configDirPath c ++ str "/app_config_prod.json")
      (configJson (str "prod") ++ str "\n") s3
    let s5 := doWrite (configDirPath c ++ str "/app_config_uat.json")
      (configJson (str "uat") ++ str "\n") s4
    okS (push (str "✔ Config files created (config/app_config_\x7bdev,prod,uat\x7d.json)") s5)

def step11 (c : Ctx) (s : St) : Res :=
  let s1 := push (stepMsg 11 (str "Configuring Android build (desugaring, HMS, ProGuard)")) s
  if c.dryRun then
    okS (push (str "  [dry-run] Create android/app/proguard-rules.pro")
      (push (str "  [dry-run] Patch android/app/build.gradle.kts (compileOptions, buildTypes, dependencies)") s1))
  else
    if s1.fs.pathExists (gradlePath c) then
      let gradle := patchGradle (s1.fs.content (gradlePath c))
      let s2 := push (str "✔ android/app/build.gradle.kts updated (desugaring, buildTypes, dependencies)")
        (doWrite (gradlePath c) gradle s1)
      okS (push (str "✔ android/app/proguard-rules.pro created")
        (doWrite (proguardPath c) proguardContent s2))
    else
      throwE (str "android/app/build.gradle.kts not found at " ++ gradlePath c) s1

-- ─── Pre-flight, header, completion, and the whole handler ───────────

def toolchainMsg : Str :=
  str "Neither fvm nor flutter found on PATH. Install Flutter or fvm first."

def gitMsg : Str := str "git is not installed."

def dirMsg (pd : Str) : Str :=
  str "Directory '" ++ pd ++ str "' already exists. Remove it or choose a different name."

/-- The pre-flight block: in dry-run mode only a log line; otherwise the
toolchain probe chain (`!useFvm && !commandExists("flutter")`, short-circuit),
the git check, and the target-directory check, in source order. -/
def preflightChecks (c : Ctx) (s : St) : Res :=
  if c.dryRun then
    okS (push (str "[pre-flight] Would verify: flutter/fvm, git installed; " ++
      (projectDir c ++ str " does not exist")) s)
  else
    let rest : St → Res := fun s2 =>
      if c.git then
        if s2.fs.pathExists (projectDir c) then throwE (dirMsg (projectDir c)) s2
        else okS s2
      else throwE gitMsg s2
    if c.fvm then rest s
    else
      let s1 := addEff (.probe (str "flutter")) s
      if c.flutter then rest s1 else throwE toolchainMsg s1

/-- Initial state of a handler invocation: the tool-detection probes
(`detectFvm`, `commandExists("git")`) and the header log lines. -/
def headerSt (c : Ctx) (fs0 : FS) : St :=
  let s0 : St := ⟨[], fs0, [], 0⟩
  let s1 := addEff (.probe (str "git")) (addEff (.probe (str "fvm")) s0)
  let s2 :=
    push (str "Runner:   " ++ (if c.fvm then str "fvm" else str "flutter/dart (fvm not found)"))
      (push (str "Location: " ++ projectDir c)
        (push (str "Template: " ++ c.template)
          (push (str "Org:      " ++ c.org)
            (push (str "Project:  " ++ c.name) s1))))
  if c.dryRun then push (str "Mode:     DRY RUN\n") s2 else s2

/-- The completion lines pushed after step 11. -/
def finishSt (c : Ctx) (s : St) : St :=
  if c.dryRun then
    push (str "\n── Dry run complete! No changes were made. ──") s
  else
    push (str "  2. Open " ++ projectDir c ++ str " in your IDE and start building")
      (push (str "  1. Fill in config/app_config_*.json with your API keys")
        (push (str "\nNext steps:")
          (push (str "Project location: " ++ projectDir c)
            (push (str "\n── Setup complete! ──") s))))

/-- Steps 1 to 11 in order, abort on first failure. -/
def runSteps (c : Ctx) (s : St) : Res :=
  bindR (step1 c s) (fun s1 =>
  bindR (step2 c s1) (fun s2 =>
  bindR (step3 c s2) (fun s3 =>
  bindR (step4 c s3) (fun s4 =>
  bindR (step5 c s4) (fun s5 =>
  bindR (step6 c s5) (fun s6 =>
  bindR (step7 c s6) (fun s7 =>
  bindR (step8 c s7) (fun s8 =>
  bindR (step9 c s8) (fun s9 =>
  bindR (step10 c s9) (fun s10 =>
  bindR (step11 c s10) (fun s11 =>
  okS (finishSt c s11))))))))))))

/-- The `create_flutter_project` handler body from tool detection to the
`try`-block result, before the `catch` payload is assembled. -/
def pipelineRun (c : Ctx) (fs0 : FS) : Res :=
  bindR (preflightChecks c (headerSt c fs0)) (runSteps c)

/-- The handler's returned payload. -/
inductive Outcome where
  | ok (text : Str) (log : List Str) (fs : FS) (effects : List Effect)
  | err (text : Str) (log : List Str) (fs : FS) (effects : List Effect)

/-- `create_flutter_project`: success returns the joined log; failure returns
`❌ Setup failed:` plus the message plus the progress so far. -/
def create_flutter_project (c : Ctx) (fs0 : FS) : Outcome :=
  match pipelineRun c fs0 with
  | .ok s => .ok (joinNl s.log) s.log s.fs s.effects
  | .error f =>
    .err (str "❌ Setup failed:\n" ++ f.msg ++ str "\n\nProgress so far:\n" ++ joinNl f.st.log)
      f.st.log f.st.fs f.st.effects

-- ─── Analysis vocabulary (used only in the statements below) ─────────

/-- The eleven step-line markers `[k/11] ` of the progress log. -/
def stepPres : List Str :=
  [str "[1/11] ", str "[2/11] ", str "[3/11] ", str "[4/11] ", str "[5/11] ",
   str "[6/11] ", str "[7/11] ", str "[8/11] ", str "[9/11] ", str "[10/11] ",
   str "[11/11] "]

/-- A log line that announces one of the eleven steps. -/
def isStepLine (l : Str) : Bool := stepPres.any (fun p => headMatch l p)

/-- The five echo lines pushed before the pre-flight checks. -/
def headerLines (c : Ctx) : List Str :=
  [str "Project:  " ++ c.name,
   str "Org:      " ++ c.org,
   str "Template: " ++ c.template,
   str "Location: " ++ projectDir c,
   str "Runner:   " ++ (if c.fvm then str "fvm" else str "flutter/dart (fvm not found)")]

/-- The eleven step announcement lines, in order. -/
def stepHeaderList (c : Ctx) : List Str :=
  [stepMsg 1 (str "Installing app_starter_plus"),
   stepMsg 2 (str "Cloning template into " ++ c.name),
   stepMsg 3 (str "Initialising Git repository"),
   stepMsg 4 (str "Installing Flutter dependencies"),
   stepMsg 5 (str "Generating localisations"),
   stepMsg 6 (str "Updating flavorizr.yaml"),
   stepMsg 7 (str "Committing all files before flavorizr"),
   stepMsg 8 (str "Generating flavors (flavorizr)"),
   stepMsg 9 (str "Reverting main.dart & app.dart (overwritten by flavorizr)"),
   stepMsg 10 (str "Creating config files"),
   stepMsg 11 (str "Configuring Android build (desugaring, HMS, ProGuard)")]

/-- The dry-run completion marker line. -/
def dryDoneLine : Str := str "\n── Dry run complete! No changes were made. ──"

/-- The complete log of a dry run (fully determined by the request and the
detected runner). -/
def dryLog (c : Ctx) : List Str :=
  [str "Project:  " ++ c.name,
   str "Org:      " ++ c.org,
   str "Template: " ++ c.template,
   str "Location: " ++ projectDir c,
   str "Runner:   " ++ (if c.fvm then str "fvm" else str "flutter/dart (fvm not found)"),
   str "Mode:     DRY RUN\n",
   str "[pre-flight] Would verify: flutter/fvm, git installed; " ++ (projectDir c ++ str " does not exist"),
   stepMsg 1 (str "Installing app_starter_plus"),
   str "  [dry-run] " ++ fvmCmd c.fvm (str "dart") ++ str " " ++ joinSp (fvmArgs c.fvm (str "dart") activateArgs),
   str "✔ app_starter_plus ready",
   stepMsg 2 (str "Cloning template into " ++ c.name),
   str "  [dry-run] " ++ fvmCmd c.fvm (str "dart") ++ str " " ++ joinSp (starterArgs c),
   str "✔ Template cloned",
   stepMsg 3 (str "Initialising Git repository"),
   str "  [dry-run] git init (if .git/ does not exist)",
   str "  [dry-run] git config core.hooksPath .githooks/ (if .githooks/ exists)",
   stepMsg 4 (str "Installing Flutter dependencies"),
   str "  [dry-run] " ++ fvmCmd c.fvm (str "flutter") ++ str " " ++ joinSp (fvmArgs c.fvm (str "flutter") [str "pub", str "get"]),
   str "✔ Dependencies installed",
   stepMsg 5 (str "Generating localisations"),
   str "  [dry-run] " ++ fvmCmd c.fvm (str "flutter") ++ str " " ++ joinSp (fvmArgs c.fvm (str "flutter") [str "gen-l10n"]),
   str "✔ Localisations generated",
   stepMsg 6 (str "Updating flavorizr.yaml"),
   str "  [dry-run] Update flavorizr.yaml with project name & org",
   str "✔ flavorizr.yaml updated",
   stepMsg 7 (str "Committing all files before flavorizr"),
   str "  [dry-run] git add -A && git commit",
   str "✔ All files committed",
   stepMsg 8 (str "Generating flavors (flavorizr)"),
   str "  [dry-run] " ++ fvmCmd c.fvm (str "flutter") ++ str " " ++ joinSp (fvmArgs c.fvm (str "flutter") [str "pub", str "run", str "flutter_flavorizr"]),
   str "  [dry-run] (will use expect for PTY allocation)",
   str "✔ Flavors generated",
   stepMsg 9 (str "Reverting main.dart & app.dart (overwritten by flavorizr)"),
   str "  [dry-run] git checkout -- lib/main.dart lib/app.dart",
   str "✔ main.dart & app.dart reverted",
   stepMsg 10 (str "Creating config files"),
   str "  [dry-run] mkdir -p config",
   str "  [dry-run] Write config/app_config_\x7bdev,prod,uat\x7d.json",
   str "✔ Config files created (config/app_config_\x7bdev,prod,uat\x7d.json)",
   stepMsg 11 (str "Configuring Android build (desugaring, HMS, ProGuard)"),
   str "  [dry-run] Patch android/app/build.gradle.kts (compileOptions, buildTypes, dependencies)",
   str "  [dry-run] Create android/app/proguard-rules.pro",
   dryDoneLine]

/-- An effect that is not the direct-flutter probe. -/
def notFlutterProbe (e : Effect) : Prop := e ≠ .probe (str "flutter")

/-- Frame relation between two states of one run: effects are only appended,
none of the appended ones is the direct-flutter probe, and a path that
existed keeps existing. -/
def Frames (s s' : St) : Prop :=
  (∃ d, s'.effects = s.effects ++ d ∧ ∀ e ∈ d, notFlutterProbe e) ∧
  (∀ p, s.fs.pathExists p = true → s'.fs.pathExists p = true)

/-- Shape of every message thrown by one of the eleven steps (as opposed to
the pre-flight checks). -/
def stepErrShape (m : Str) : Prop :=
  (∃ r, m = str "Command failed: " ++ r) ∨
  (∃ r, m = str "flavorizr.yaml not found at " ++ r) ∨
  (∃ r, m = str "android/app/build.gradle.kts not found at " ++ r)

/-- A mutation-free effect trace: probes and spawns only. -/
def noFsEffect (e : Effect) : Prop :=
  (∀ p t, e ≠ .fsWrite p t) ∧ (∀ p, e ≠ .fsMkdir p)

-- ─── Concrete instances for the witnesses ────────────────────────────

/-- An empty filesystem. -/
def fsNone : FS := ⟨fun _ => false, fun _ => []⟩

/-- The dry-run scenario of the specification:
`name: "logistics_app", org: "mu.mt", dry_run: true`. -/
def cDry : Ctx :=
  { name := str "logistics_app", org := str "mu.mt", template := DEFAULT_TEMPLATE,
    parentDir := str "/work", dryRun := true, fvm := false, git := true,
    flutter := true, expectAvail := false,
    oracle := fun _ => true, oracleOut := fun _ => [],
    cloned := fun _ => false, cloneContent := fun _ => [] }

/-- A non-dry-run context in which every child process succeeds and the
template provides the descriptor file and the build script. -/
def cRun : Ctx :=
  { cDry with
    dryRun := false
    fvm := true
    expectAvail := true
    cloned := fun rel =>
      (rel == str "flavorizr.yaml") || (rel == str "android/app/build.gradle.kts")
    cloneContent := fun _ => str "x" }

/-- Like `cRun` but the cloned template lacks `flavorizr.yaml`. -/
def cNoFlav : Ctx :=
  { cRun with cloned := fun rel => rel == str "android/app/build.gradle.kts" }

/-- Like `cRun` but without the terminal-allocation helper. -/
def cNoExpect : Ctx := { cRun with expectAvail := false }

/-- A state used to exercise single steps in witnesses. -/
def sDemo : St := ⟨[], fsNone, [], 0⟩

/-- A small realistic `build.gradle.kts` body used in witnesses. -/
def gradleDemoContent : Str :=
  str "android \x7b\n    compileOptions \x7b\n        k\n    \x7d\n    buildTypes \x7b\n        release \x7b\n        \x7d\n    \x7d\n\x7d\n"

/-- A state whose filesystem has a build script at `cRun`'s gradle path. -/
def sGradle : St :=
  ⟨[], ⟨fun p => p == gradlePath cRun, fun _ => gradleDemoContent⟩, [], 0⟩

-- ─── String-matching infrastructure lemmas ───────────────────────────

theorem chBeqComm (x y : Char) : (x == y) = (y == x) := by
  by_cases h : x = y
  · subst h; rfl
  · have h2 : ¬(y = x) := fun e => h e.symm
    simp [h, h2]

theorem headMatch_append_self (p r : Str) : headMatch (p ++ r) p = true := by
  induction p with
  | nil => cases r <;> rfl
  | cons c cs ih => simp [headMatch, ih]

theorem headMatch_append (a r p : Str) :
    headMatch (a ++ r) p = (headMatch a p || (headMatch p a && headMatch r (p.drop a.length))) := by
  induction a generalizing p with
  | nil =>
    cases p with
    | nil => simp [headMatch]
    | cons y ps => simp [headMatch]
  | cons x as ih =>
    cases p with
    | nil => simp [headMatch]
    | cons y ps =>
      simp only [List.cons_append, headMatch, List.length_cons, List.drop_succ_cons,
        List.append_eq, chBeqComm x y]
      rw [ih ps]
      cases h : (y == x) <;> simp [Bool.and_or_distrib_left]

theorem headMatch_iff (l p : Str) : headMatch l p = true ↔ ∃ r, l = p ++ r := by
  constructor
  · intro h
    induction p generalizing l with
    | nil => exact ⟨l, rfl⟩
    | cons y ps ih =>
      cases l with
      | nil => simp [headMatch] at h
      | cons c cs =>
        simp only [headMatch, Bool.and_eq_true, beq_iff_eq] at h
        obtain ⟨r, hr⟩ := ih cs h.2
        exact ⟨r, by simp [h.1, hr]⟩
  · rintro ⟨r, rfl⟩
    exact headMatch_append_self p r

theorem hasSub_of_headMatch (l p : Str) (h : headMatch l p = true) : hasSub l p = true := by
  cases l with
  | nil =>
    cases p with
    | nil => rfl
    | cons y ps => simp [headMatch] at h
  | cons c t => simp [hasSub, h]

theorem hasSub_iff (l p : Str) : hasSub l p = true ↔ ∃ a b, l = a ++ (p ++ b) := by
  constructor
  · intro h
    induction l with
    | nil =>
      simp only [hasSub, List.isEmpty_iff] at h
      exact ⟨[], [], by simp [h]⟩
    | cons c cs ih =>
      simp only [hasSub, Bool.or_eq_true] at h
      rcases h with h | h
      · obtain ⟨r, hr⟩ := (headMatch_iff _ _).1 h
        exact ⟨[], r, by simp [hr]⟩
      · obtain ⟨a, b, hab⟩ := ih h
        exact ⟨c :: a, b, by simp [hab]⟩
  · rintro ⟨a, b, rfl⟩
    induction a with
    | nil => exact hasSub_of_headMatch _ _ (headMatch_append_self p b)
    | cons c as ih => simp only [List.cons_append, hasSub, List.append_eq, ih, Bool.or_true]

theorem dropLit_self (p r : Str) : dropLit p (p ++ r) = some r := by
  induction p with
  | nil => rfl
  | cons c cs ih => simp [dropLit, ih]

theorem any_headMatch_append (ps : List Str) (a r : Str)
    (h : ∀ p ∈ ps, headMatch p a = false) :
    (ps.any (fun p => headMatch (a ++ r) p)) = (ps.any (fun p => headMatch a p)) := by
  induction ps with
  | nil => rfl
  | cons q qs ih =>
    have hq := h q (by simp)
    simp only [List.any_cons]
    rw [headMatch_append, hq, ih (fun p hp => h p (by simp [hp]))]
    simp

theorem isStepLine_lit (a r : Str) (h : ∀ p ∈ stepPres, headMatch p a = false) :
    isStepLine (a ++ r) = isStepLine a := by
  unfold isStepLine
  exact any_headMatch_append stepPres a r h

theorem isl_false_of (a r : Str) (h : ∀ p ∈ stepPres, headMatch p a = false)
    (h2 : isStepLine a = false) : isStepLine (a ++ r) = false :=
  (isStepLine_lit a r h).trans h2

theorem isStepLine_pre (p : Str) (hp : p ∈ stepPres) (m : Str) : isStepLine (p ++ m) = true := by
  unfold isStepLine
  rw [List.any_eq_true]
  exact ⟨p, hp, headMatch_append_self p m⟩

-- ─── Step-line facts for the concrete log lines ──────────────────────

theorem stepMsg_one (m : Str) : stepMsg 1 m = str "[1/11] " ++ m := rfl

theorem stepMsg_two (m : Str) : stepMsg 2 m = str "[2/11] " ++ m := rfl

theorem stepMsg_three (m : Str) : stepMsg 3 m = str "[3/11] " ++ m := rfl

theorem stepMsg_four (m : Str) : stepMsg 4 m = str "[4/11] " ++ m := rfl

theorem stepMsg_five (m : Str) : stepMsg 5 m = str "[5/11] " ++ m := rfl

theorem stepMsg_six (m : Str) : stepMsg 6 m = str "[6/11] " ++ m := rfl

theorem stepMsg_seven (m : Str) : stepMsg 7 m = str "[7/11] " ++ m := rfl

theorem stepMsg_eight (m : Str) : stepMsg 8 m = str "[8/11] " ++ m := rfl

theorem stepMsg_nine (m : Str) : stepMsg 9 m = str "[9/11] " ++ m := rfl

theorem stepMsg_ten (m : Str) : stepMsg 10 m = str "[10/11] " ++ m := rfl

theorem stepMsg_eleven (m : Str) : stepMsg 11 m = str "[11/11] " ++ m := rfl

theorem isl_step (k : Nat) (m : Str) (h1 : 1 ≤ k) (h2 : k ≤ 11) :
    isStepLine (stepMsg k m) = true := by
  interval_cases k <;>
    first
    | exact (stepMsg_one m) ▸ isStepLine_pre _ (by decide) m
    | exact (stepMsg_two m) ▸ isStepLine_pre _ (by decide) m
    | exact (stepMsg_three m) ▸ isStepLine_pre _ (by decide) m
    | exact (stepMsg_four m) ▸ isStepLine_pre _ (by decide) m
    | exact (stepMsg_five m) ▸ isStepLine_pre _ (by decide) m
    | exact (stepMsg_six m) ▸ isStepLine_pre _ (by decide) m
    | exact (stepMsg_seven m) ▸ isStepLine_pre _ (by decide) m
    | exact (stepMsg_eight m) ▸ isStepLine_pre _ (by decide) m
    | exact (stepMsg_nine m) ▸ isStepLine_pre _ (by decide) m
    | exact (stepMsg_ten m) ▸ isStepLine_pre _ (by decide) m
    | exact (stepMsg_eleven m) ▸ isStepLine_pre _ (by decide) m

theorem isl_project (r : Str) : isStepLine (str "Project:  " ++ r) = false :=
  isl_false_of _ r (by decide) (by decide)

theorem isl_org (r : Str) : isStepLine (str "Org:      " ++ r) = false :=
  isl_false_of _ r (by decide) (by decide)

theorem isl_template (r : Str) : isStepLine (str "Template: " ++ r) = false :=
  isl_false_of _ r (by decide) (by decide)

theorem isl_location (r : Str) : isStepLine (str "Location: " ++ r) = false :=
  isl_false_of _ r (by decide) (by decide)

theorem isl_runner (r : Str) : isStepLine (str "Runner:   " ++ r) = false :=
  isl_false_of _ r (by decide) (by decide)

theorem isl_preflight (r : Str) :
    isStepLine (str "[pre-flight] Would verify: flutter/fvm, git installed; " ++ r) = false :=
  isl_false_of _ r (by decide) (by decide)

theorem isl_dryrun (r : Str) : isStepLine (str "  [dry-run] " ++ r) = false :=
  isl_false_of _ r (by decide) (by decide)

theorem isl_s1 (m : Str) : isStepLine (stepMsg 1 m) = true := isl_step 1 m (by norm_num) (by norm_num)

theorem isl_s2 (m : Str) : isStepLine (stepMsg 2 m) = true := isl_step 2 m (by norm_num) (by norm_num)

theorem isl_s3 (m : Str) : isStepLine (stepMsg 3 m) = true := isl_step 3 m (by norm_num) (by norm_num)

theorem isl_s4 (m : Str) : isStepLine (stepMsg 4 m) = true := isl_step 4 m (by norm_num) (by norm_num)

theorem isl_s5 (m : Str) : isStepLine (stepMsg 5 m) = true := isl_step 5 m (by norm_num) (by norm_num)

theorem isl_s6 (m : Str) : isStepLine (stepMsg 6 m) = true := isl_step 6 m (by norm_num) (by norm_num)

theorem isl_s7 (m : Str) : isStepLine (stepMsg 7 m) = true := isl_step 7 m (by norm_num) (by norm_num)

theorem isl_s8 (m : Str) : isStepLine (stepMsg 8 m) = true := isl_step 8 m (by norm_num) (by norm_num)

theorem isl_s9 (m : Str) : isStepLine (stepMsg 9 m) = true := isl_step 9 m (by norm_num) (by norm_num)

theorem isl_s10 (m : Str) : isStepLine (stepMsg 10 m) = true := isl_step 10 m (by norm_num) (by norm_num)

theorem isl_s11 (m : Str) : isStepLine (stepMsg 11 m) = true := isl_step 11 m (by norm_num) (by norm_num)

set_option maxHeartbeats 1000000 in
theorem pipeline_dry (c : Ctx) (fs0 : FS) (h : c.dryRun = true) :
    pipelineRun c fs0 =
      .ok ⟨dryLog c, fs0, [.probe (str "fvm"), .probe (str "git")], 0⟩ := by
  simp only [pipelineRun, headerSt, preflightChecks, runSteps, step1, step2, step3, step4,
    step5, step6, step7, step8, step9, step10, step11, finishSt, h, if_true, bindR, okS,
    push, addEff, dryLog, dryDoneLine]
  simp [List.append_assoc]

set_option maxHeartbeats 1000000 in
theorem dryLog_filter (c : Ctx) : (dryLog c).filter isStepLine = stepHeaderList c := by
  have g1 : isStepLine (str "Mode:     DRY RUN\n") = false := by decide
  have g2 : isStepLine (str "  [dry-run] git init (if .git/ does not exist)") = false := by decide
  have g3 : isStepLine (str "  [dry-run] git config core.hooksPath .githooks/ (if .githooks/ exists)") = false := by decide
  have g4 : isStepLine (str "✔ app_starter_plus ready") = false := by decide
  have g5 : isStepLine (str "✔ Template cloned") = false := by decide
  have g6 : isStepLine (str "✔ Dependencies installed") = false := by decide
  have g7 : isStepLine (str "✔ Localisations generated") = false := by decide
  have g8 : isStepLine (str "  [dry-run] Update flavorizr.yaml with project name & org") = false := by decide
  have g9 : isStepLine (str "✔ flavorizr.yaml updated") = false := by decide
  have g10 : isStepLine (str "  [dry-run] git add -A && git commit") = false := by decide
  have g11 : isStepLine (str "✔ All files committed") = false := by decide
  have g12 : isStepLine (str "  [dry-run] (will use expect for PTY allocation)") = false := by decide
  have g13 : isStepLine (str "✔ Flavors generated") = false := by decide
  have g14 : isStepLine (str "  [dry-run] git checkout -- lib/main.dart lib/app.dart") = false := by decide
  have g15 : isStepLine (str "✔ main.dart & app.dart reverted") = false := by decide
  have g16 : isStepLine (str "  [dry-run] mkdir -p config") = false := by decide
  have g17 : isStepLine (str "  [dry-run] Write config/app_config_\x7bdev,prod,uat\x7d.json") = false := by decide
  have g18 : isStepLine (str "✔ Config files created (config/app_config_\x7bdev,prod,uat\x7d.json)") = false := by decide
  have g19 : isStepLine (str "  [dry-run] Patch android/app/build.gradle.kts (compileOptions, buildTypes, dependencies)") = false := by decide
  have g20 : isStepLine (str "  [dry-run] Create android/app/proguard-rules.pro") = false := by decide
  have g21 : isStepLine dryDoneLine = false := by decide
  simp only [dryLog, List.append_assoc]
  simp [List.filter_cons, stepHeaderList, g1, g2, g3, g4, g5, g6, g7, g8, g9, g10, g11,
    g12, g13, g14, g15, g16, g17, g18, g19, g20, g21,
    isl_project, isl_org, isl_template, isl_location, isl_runner, isl_preflight, isl_dryrun,
    isl_s1, isl_s2, isl_s3, isl_s4, isl_s5, isl_s6, isl_s7, isl_s8, isl_s9, isl_s10, isl_s11]

theorem dryLog_last (c : Ctx) : (dryLog c).getLast? = some dryDoneLine := rfl

theorem headerLines_filter (c : Ctx) : (headerLines c).filter isStepLine = [] := by
  simp [headerLines, List.filter_cons, isl_project, isl_org, isl_template, isl_location,
    isl_runner]

/-- C1: with `dry_run = true` and a valid request, the pipeline performs no
filesystem write and no process spawn beyond the two read-only probes (the
`fvm` runner probe and the `git` probe) and no version-control mutation: the
result is `ok` with the filesystem unchanged and the effect trace exactly the
two probes; the returned log is exactly `dryLog`, whose step lines are, in
order, the eleven `[k/11]`-prefixed announcements, and whose final line is
the `No changes were made` dry-run marker. -/
theorem dry_run_contract (c : Ctx) (fs0 : FS)
    (hdry : c.dryRun = true) (hname : validName c.name = true) (horg : c.org ≠ []) :
    pipelineRun c fs0 =
      .ok ⟨dryLog c, fs0, [.probe (str "fvm"), .probe (str "git")], 0⟩ ∧
    (dryLog c).filter isStepLine = stepHeaderList c ∧
    (dryLog c).getLast? = some dryDoneLine :=
  ⟨pipeline_dry c fs0 hdry, dryLog_filter c, dryLog_last c⟩

/-- C1 witness: the specification's scenario
`{name: "logistics_app", org: "mu.mt", dry_run: true}`. -/
theorem dry_run_contract_witness :
    pipelineRun cDry fsNone =
      .ok ⟨dryLog cDry, fsNone, [.probe (str "fvm"), .probe (str "git")], 0⟩ ∧
    (dryLog cDry).filter isStepLine = stepHeaderList cDry ∧
    (dryLog cDry).getLast? = some dryDoneLine :=
  dry_run_contract cDry fsNone rfl (by decide) (by decide)

-- ─── C6, C7, C8: the pure helpers ────────────────────────────────────

/-- C6: for every logical command and argument list, WRAPPED mode (`useFvm =
true`) resolves to the `fvm` executable with the logical command prepended to
the arguments, and DIRECT mode (`useFvm = false`) leaves both the command and
the arguments unchanged. -/
theorem runner_resolution (cmd : Str) (args : List Str) :
    fvmCmd true cmd = str "fvm" ∧ fvmArgs true cmd args = cmd :: args ∧
    fvmCmd false cmd = cmd ∧ fvmArgs false cmd args = args :=
  ⟨rfl, rfl, rfl, rfl⟩

/-- C7: `toDisplayName` and `toAppId` are pure functions of the name;
`toDisplayName "telecom_app" = "Telecom App"`, `toAppId "telecom_app" =
"telecomapp"`, the example name matches the accepted shape, and `toAppId`
never leaves an underscore in its output. -/
theorem display_name_app_id (pkg : Str) :
    toDisplayName (str "telecom_app") = str "Telecom App" ∧
    toAppId (str "telecom_app") = str "telecomapp" ∧
    validName (str "telecom_app") = true ∧
    '_' ∉ toAppId pkg := by
  refine ⟨by decide, by decide, by decide, ?_⟩
  simp [toAppId, List.mem_filter]

/-- C8: for each of the three environment names, `configJson` serialises an
object with exactly the four fixed keys in order, `secretKey` the uppercased
environment name and the other three values empty. -/
theorem config_json_fixed :
    (configObject (str "dev") =
       [(str "secretKey", str "DEV"), (str "baseUrl", str ""),
        (str "xAPIKey", str ""), (str "oneSignalKey", str "")] ∧
     configJson (str "dev") =
       str "\x7b\n  \"secretKey\": \"DEV\",\n  \"baseUrl\": \"\",\n  \"xAPIKey\": \"\",\n  \"oneSignalKey\": \"\"\n\x7d") ∧
    (configObject (str "uat") =
       [(str "secretKey", str "UAT"), (str "baseUrl", str ""),
        (str "xAPIKey", str ""), (str "oneSignalKey", str "")] ∧
     configJson (str "uat") =
       str "\x7b\n  \"secretKey\": \"UAT\",\n  \"baseUrl\": \"\",\n  \"xAPIKey\": \"\",\n  \"oneSignalKey\": \"\"\n\x7d") ∧
    (configObject (str "prod") =
       [(str "secretKey", str "PROD"), (str "baseUrl", str ""),
        (str "xAPIKey", str ""), (str "oneSignalKey", str "")] ∧
     configJson (str "prod") =
       str "\x7b\n  \"secretKey\": \"PROD\",\n  \"baseUrl\": \"\",\n  \"xAPIKey\": \"\",\n  \"oneSignalKey\": \"\"\n\x7d") := by
  decide

-- ─── C4: the interactive executor ────────────────────────────────────

/-- C4 counterexample: the scripted session's prompt matcher is NOT
case-insensitive.  The Tcl regular expression embedded in the script (an
alternation of the five literal patterns, with no `-nocase` flag anywhere in
the script) does not match the output `"PROCEED"`, although a
case-insensitive match of the pattern word `proceed` would. -/
theorem runInteractive_matcher_counterexample :
    scriptMatcher (str "PROCEED") = false ∧ ciMatcher (str "PROCEED") = true ∧
    hasSub (expectScriptFor (fullCmdOf (str "flutter") [str "pub", str "run", str "flutter_flavorizr"])) (str "-nocase") = false ∧
    hasSub (expectScriptFor (fullCmdOf (str "flutter") [str "pub", str "run", str "flutter_flavorizr"])) (str "\\(Y/n\\)|\\(y/N\\)|\\[Y/n\\]|\\[y/N\\]|proceed") = true := by
  decide

/-- C4 (amended): `runInteractive`'s two-strategy contract.  With the helper
available it runs `expect -c script` where the script sets the 300-unit hard
ceiling first, aborts with exit 1 on timeout, auto-answers `y` with a line
terminator and continues on each prompt match, and propagates the session's
exit status as its last action; the session's exit status is exactly the
executor's result.  Without the helper it runs the command directly with
exactly the `CI=true` and `TERM=dumb` environment hints and constructs no
scripted session.  The script's matcher matches exactly when one of the five
literal confirmation patterns occurs in the output (case-sensitively). -/
theorem runInteractive_contract (c : Ctx) (cmd : Str) (args : List Str)
    (cwd : Option Str) (s : St) :
    (c.expectAvail = true →
      runInteractive c cmd args cwd s =
        runCmd c (str "expect") [str "-c", expectScriptFor (fullCmdOf cmd args)] cwd [] id
          (addEff (.probe (str "expect")) s) ∧
      (resSt (runInteractive c cmd args cwd s)).effects =
        s.effects ++ [.probe (str "expect"),
          .spawn (str "expect") [str "-c", expectScriptFor (fullCmdOf cmd args)] cwd []] ∧
      ((∃ s2, runInteractive c cmd args cwd s = .ok s2) ↔ c.oracle s.k = true)) ∧
    (c.expectAvail = false →
      (resSt (runInteractive c cmd args cwd s)).effects =
        s.effects ++ [.probe (str "expect"),
          .spawn cmd args cwd [(str "CI", str "true"), (str "TERM", str "dumb")]]) ∧
    (expectScriptLines (fullCmdOf cmd args)).head? = some (str "set timeout 300") ∧
    (expectScriptLines (fullCmdOf cmd args)).getLast? = some (str "exit $value") ∧
    str "  -re \x7b\\(Y/n\\)|\\(y/N\\)|\\[Y/n\\]|\\[y/N\\]|proceed\x7d \x7b send \"y\\r\"; exp_continue \x7d" ∈ expectScriptLines (fullCmdOf cmd args) ∧
    str "  timeout \x7b exit 1 \x7d" ∈ expectScriptLines (fullCmdOf cmd args) ∧
    (∀ out, scriptMatcher out = true ↔ ∃ p ∈ confirmPatterns, ∃ a b, out = a ++ (p ++ b)) := by
  refine ⟨fun h => ⟨?_, ?_, ?_⟩, fun h => ?_, rfl, rfl, ?_, ?_, ?_⟩
  · simp [runInteractive, h]
  · cases h2 : c.oracle s.k <;>
      simp [runInteractive, h, runCmd, addEff, okS, throwE, resSt, h2, List.append_assoc]
  · cases h2 : c.oracle s.k <;>
      simp [runInteractive, h, runCmd, addEff, okS, throwE, h2]
  · cases h2 : c.oracle s.k <;>
      simp [runInteractive, h, runCmd, addEff, okS, throwE, resSt, h2, List.append_assoc]
  · simp [expectScriptLines]
  · simp [expectScriptLines]
  · intro out
    simp only [scriptMatcher, List.any_eq_true]
    constructor
    · rintro ⟨p, hp, hsub⟩
      exact ⟨p, hp, (hasSub_iff _ _).1 hsub⟩
    · rintro ⟨p, hp, a, b, rfl⟩
      exact ⟨p, hp, (hasSub_iff _ _).2 ⟨a, b, rfl⟩⟩

/-- C4 witness: both strategies at concrete inputs. -/
theorem runInteractive_contract_witness :
    (runInteractive cRun (str "flutter") [str "pub", str "run", str "flutter_flavorizr"] none sDemo =
      runCmd cRun (str "expect")
        [str "-c", expectScriptFor (fullCmdOf (str "flutter") [str "pub", str "run", str "flutter_flavorizr"])]
        none [] id (addEff (.probe (str "expect")) sDemo)) ∧
    ((resSt (runInteractive cNoExpect (str "flutter") [str "pub", str "run", str "flutter_flavorizr"] none sDemo)).effects =
      sDemo.effects ++ [.probe (str "expect"),
        .spawn (str "flutter") [str "pub", str "run", str "flutter_flavorizr"] none
          [(str "CI", str "true"), (str "TERM", str "dumb")]]) :=
  ⟨((runInteractive_contract cRun (str "flutter") [str "pub", str "run", str "flutter_flavorizr"] none sDemo).1 (by decide)).1,
   (runInteractive_contract cNoExpect (str "flutter") [str "pub", str "run", str "flutter_flavorizr"] none sDemo).2.1 (by decide)⟩

-- ─── Step 11 regex-edit lemmas ───────────────────────────────────────

theorem dropWhile_ws_append (w r : Str) (hw : w.all isWsChar = true) :
    List.dropWhile isWsChar (w ++ r) = List.dropWhile isWsChar r := by
  induction w with
  | nil => rfl
  | cons c cs ih =>
    simp only [List.all_cons, Bool.and_eq_true] at hw
    simp [List.dropWhile_cons, hw.1, ih hw.2]

theorem matchCO_at (w b : Str) (hw : w.all isWsChar = true) :
    matchCO (str "compileOptions" ++ (w ++ ('\x7b' :: b))) = some b := by
  have hx : List.dropWhile isWsChar ('\x7b' :: b) = '\x7b' :: b := by
    have h0 : isWsChar '\x7b' = false := by decide
    simp [List.dropWhile_cons, h0]
  simp [matchCO, dropLit_self, dropWhile_ws_append w ('\x7b' :: b) hw, hx]

theorem findClose_eq_close (b : Str) : findClose (str "\n    \x7d" ++ b) = some b := by
  show findClose ('\n' :: (str "    \x7d" ++ b)) = some b
  unfold findClose
  rw [show dropLit (str "\n    \x7d") ('\n' :: (str "    \x7d" ++ b)) = some b from
    dropLit_self (str "\n    \x7d") b]

theorem findClose_first : ∀ (mid b : Str),
    (∀ s, s <:+ (mid ++ (str "\n    \x7d" ++ b)) →
      (str "\n    \x7d" ++ b).length < s.length → dropLit (str "\n    \x7d") s = none) →
    findClose (mid ++ (str "\n    \x7d" ++ b)) = some b := by
  intro mid
  induction mid with
  | nil =>
    intro b _
    simpa using findClose_eq_close b
  | cons c cs ih =>
    intro b h
    simp only [List.cons_append]
    have h0 : dropLit (str "\n    \x7d") (c :: (cs ++ (str "\n    \x7d" ++ b))) = none := by
      apply h
      · exact List.suffix_rfl
      · simp [List.length_append, List.length_cons]
        omega
    unfold findClose
    rw [h0]
    exact ih b (fun s hs hlen => h s (hs.trans (List.suffix_cons c _)) hlen)

theorem matchBT_at (w mid b : Str) (hw : w.all isWsChar = true)
    (hmid : ∀ s, s <:+ (mid ++ (str "\n    \x7d" ++ b)) →
      (str "\n    \x7d" ++ b).length < s.length → dropLit (str "\n    \x7d") s = none) :
    matchBT (str "buildTypes" ++ (w ++ ('\x7b' :: (mid ++ (str "\n    \x7d" ++ b))))) = some b := by
  have hx : List.dropWhile isWsChar ('\x7b' :: (mid ++ (str "\n    \x7d" ++ b))) =
      '\x7b' :: (mid ++ (str "\n    \x7d" ++ b)) := by
    have h0 : isWsChar '\x7b' = false := by decide
    simp [List.dropWhile_cons, h0]
  simp [matchBT, dropLit_self, dropWhile_ws_append w _ hw, hx, findClose_first mid b hmid]

theorem replaceFirst_at (m : Str → Option Str) (repl : Str) :
    ∀ (u v rest : Str), v ≠ [] → m v = some rest →
      (∀ s, s <:+ (u ++ v) → v.length < s.length → m s = none) →
      replaceFirstAux m repl (u ++ v) = u ++ (repl ++ rest) := by
  intro u
  induction u with
  | nil =>
    intro v rest hv hm _
    cases v with
    | nil => exact absurd rfl hv
    | cons c t => simp [replaceFirstAux, hm]
  | cons c u2 ih =>
    intro v rest hv hm h
    simp only [List.cons_append]
    have h0 : m (c :: (u2 ++ v)) = none := by
      apply h
      · exact List.suffix_rfl
      · simp [List.length_append, List.length_cons]
        omega
    simp only [replaceFirstAux, h0]
    rw [ih v rest hv hm (fun s hs hlen => h s (hs.trans (List.suffix_cons c _)) hlen)]

theorem replaceFirst_id (m : Str → Option Str) (repl : Str) :
    ∀ t, (∀ s, s <:+ t → m s = none) → replaceFirstAux m repl t = t := by
  intro t
  induction t with
  | nil => intro _; rfl
  | cons c cs ih =>
    intro h
    have h0 : m (c :: cs) = none := h _ List.suffix_rfl
    simp only [replaceFirstAux, h0]
    rw [ih (fun s hs => h s (hs.trans (List.suffix_cons c _)))]

theorem step11_missing (c : Ctx) (s : St) (hd : c.dryRun = false)
    (h : s.fs.pathExists (gradlePath c) = false) :
    step11 c s = .error
      ⟨str "android/app/build.gradle.kts not found at " ++ gradlePath c,
       push (stepMsg 11 (str "Configuring Android build (desugaring, HMS, ProGuard)")) s⟩ := by
  simp [step11, hd, push, throwE, h]

theorem step11_present (c : Ctx) (s : St) (hd : c.dryRun = false)
    (h : s.fs.pathExists (gradlePath c) = true) :
    ∃ s2, step11 c s = .ok s2 ∧
      s2.effects = s.effects ++
        [.fsWrite (gradlePath c) (patchGradle (s.fs.content (gradlePath c))),
         .fsWrite (proguardPath c) proguardContent] ∧
      s2.log = s.log ++
        [stepMsg 11 (str "Configuring Android build (desugaring, HMS, ProGuard)"),
         str "✔ android/app/build.gradle.kts updated (desugaring, buildTypes, dependencies)",
         str "✔ android/app/proguard-rules.pro created"] := by
  refine ⟨push (str "✔ android/app/proguard-rules.pro created")
      (doWrite (proguardPath c) proguardContent
        (push (str "✔ android/app/build.gradle.kts updated (desugaring, buildTypes, dependencies)")
          (doWrite (gradlePath c) (patchGradle (s.fs.content (gradlePath c)))
            (push (stepMsg 11 (str "Configuring Android build (desugaring, HMS, ProGuard)")) s)))),
    ?_, ?_, ?_⟩
  · simp [step11, hd, push, h, okS, doWrite]
  · simp [push, doWrite, List.append_assoc]
  · simp [push, doWrite, List.append_assoc]

/-- C5: step 11 applies exactly the three structural edits, in order:
(a) the leftmost `compileOptions\s*{` span is replaced so the desugaring
flag becomes the first line inside the first compile-options block found;
(b) the entire leftmost `buildTypes\s*{...\n    }` block is replaced by the
fixed debug-variant definition `btRepl` (minification, resource shrinking,
rule files); (c) the fixed dependencies block is appended at the trimmed end
of the file; it writes the fixed `proguard-rules.pro` next to the build
script, and it fails when `android/app/build.gradle.kts` does not exist. -/
theorem step11_three_edits (c : Ctx) (s : St) (u w b u2 w2 mid b2 : Str)
    (hd : c.dryRun = false)
    (hw : w.all isWsChar = true)
    (hco : ∀ s', s' <:+ (u ++ (str "compileOptions" ++ (w ++ ('\x7b' :: b)))) →
      (str "compileOptions" ++ (w ++ ('\x7b' :: b))).length < s'.length → matchCO s' = none)
    (hw2 : w2.all isWsChar = true)
    (hbt : ∀ s', s' <:+ (u2 ++ (str "buildTypes" ++ (w2 ++ ('\x7b' :: (mid ++ (str "\n    \x7d" ++ b2)))))) →
      (str "buildTypes" ++ (w2 ++ ('\x7b' :: (mid ++ (str "\n    \x7d" ++ b2))))).length < s'.length →
      matchBT s' = none)
    (hmid : ∀ s', s' <:+ (mid ++ (str "\n    \x7d" ++ b2)) →
      (str "\n    \x7d" ++ b2).length < s'.length → dropLit (str "\n    \x7d") s' = none) :
    applyCO (u ++ (str "compileOptions" ++ (w ++ ('\x7b' :: b)))) = u ++ (coRepl ++ b) ∧
    applyBT (u2 ++ (str "buildTypes" ++ (w2 ++ ('\x7b' :: (mid ++ (str "\n    \x7d" ++ b2)))))) =
      u2 ++ (btRepl ++ b2) ∧
    (∀ t, patchGradle t = trimEndL (applyBT (applyCO t)) ++ depsBlock) ∧
    (s.fs.pathExists (gradlePath c) = false →
      step11 c s = .error
        ⟨str "android/app/build.gradle.kts not found at " ++ gradlePath c,
         push (stepMsg 11 (str "Configuring Android build (desugaring, HMS, ProGuard)")) s⟩) ∧
    (s.fs.pathExists (gradlePath c) = true →
      ∃ s2, step11 c s = .ok s2 ∧
        s2.effects = s.effects ++
          [.fsWrite (gradlePath c) (patchGradle (s.fs.content (gradlePath c))),
           .fsWrite (proguardPath c) proguardContent]) := by
  have hv : (str "compileOptions" ++ (w ++ ('\x7b' :: b))) ≠ [] := by
    intro hv
    rw [List.append_eq_nil] at hv
    exact absurd hv.1 (by decide)
  have hv2 : (str "buildTypes" ++ (w2 ++ ('\x7b' :: (mid ++ (str "\n    \x7d" ++ b2))))) ≠ [] := by
    intro hv
    rw [List.append_eq_nil] at hv
    exact absurd hv.1 (by decide)
  refine ⟨?_, ?_, fun t => rfl, fun hmiss => step11_missing c s hd hmiss, fun hpres => ?_⟩
  · exact replaceFirst_at matchCO coRepl u _ b hv (matchCO_at w b hw) hco
  · exact replaceFirst_at matchBT btRepl u2 _ b2 hv2 (matchBT_at w2 mid b2 hw2 hmid) hbt
  · obtain ⟨s2, h1, h2, _⟩ := step11_present c s hd hpres
    exact ⟨s2, h1, h2⟩

/-- C5 witness: the three edits on a small concrete build script, the abort
on a filesystem without the build script, and the writes on one with it. -/
theorem step11_three_edits_witness :
    applyCO (str "android \x7b\n    " ++ (str "compileOptions" ++ (str " " ++ ('\x7b' :: str "\n        k\n    \x7d\n    buildTypes \x7b\n        release \x7b\n        \x7d\n    \x7d\n\x7d\n")))) =
      str "android \x7b\n    " ++ (coRepl ++ str "\n        k\n    \x7d\n    buildTypes \x7b\n        release \x7b\n        \x7d\n    \x7d\n\x7d\n") ∧
    applyBT (str "android \x7b\n    compileOptions \x7b\n        k\n    \x7d\n    " ++ (str "buildTypes" ++ (str " " ++ ('\x7b' :: (str "\n        release \x7b\n        \x7d" ++ (str "\n    \x7d" ++ str "\n\x7d\n")))))) =
      str "android \x7b\n    compileOptions \x7b\n        k\n    \x7d\n    " ++ (btRepl ++ str "\n\x7d\n") ∧
    patchGradle gradleDemoContent = trimEndL (applyBT (applyCO gradleDemoContent)) ++ depsBlock ∧
    step11 cRun sDemo = .error
      ⟨str "android/app/build.gradle.kts not found at " ++ gradlePath cRun,
       push (stepMsg 11 (str "Configuring Android build (desugaring, HMS, ProGuard)")) sDemo⟩ ∧
    (∃ s2, step11 cRun sGradle = .ok s2 ∧
      s2.effects = sGradle.effects ++
        [.fsWrite (gradlePath cRun) (patchGradle (sGradle.fs.content (gradlePath cRun))),
         .fsWrite (proguardPath cRun) proguardContent]) := by
  have hco : ∀ s', s' <:+ (str "android \x7b\n    " ++ (str "compileOptions" ++ (str " " ++ ('\x7b' :: str "\n        k\n    \x7d\n    buildTypes \x7b\n        release \x7b\n        \x7d\n    \x7d\n\x7d\n")))) →
      (str "compileOptions" ++ (str " " ++ ('\x7b' :: str "\n        k\n    \x7d\n    buildTypes \x7b\n        release \x7b\n        \x7d\n    \x7d\n\x7d\n"))).length < s'.length →
      matchCO s' = none := by
    have hb : ∀ x ∈ (str "android \x7b\n    " ++ (str "compileOptions" ++ (str " " ++ ('\x7b' :: str "\n        k\n    \x7d\n    buildTypes \x7b\n        release \x7b\n        \x7d\n    \x7d\n\x7d\n")))).tails,
        (str "compileOptions" ++ (str " " ++ ('\x7b' :: str "\n        k\n    \x7d\n    buildTypes \x7b\n        release \x7b\n        \x7d\n    \x7d\n\x7d\n"))).length < x.length →
        matchCO x = none := by decide
    exact fun s' hs hlen => hb s' ((List.mem_tails _ _).mpr hs) hlen
  have hbt : ∀ s', s' <:+ (str "android \x7b\n    compileOptions \x7b\n        k\n    \x7d\n    " ++ (str "buildTypes" ++ (str " " ++ ('\x7b' :: (str "\n        release \x7b\n        \x7d" ++ (str "\n    \x7d" ++ str "\n\x7d\n")))))) →
      (str "buildTypes" ++ (str " " ++ ('\x7b' :: (str "\n        release \x7b\n        \x7d" ++ (str "\n    \x7d" ++ str "\n\x7d\n"))))).length < s'.length →
      matchBT s' = none := by
    have hb : ∀ x ∈ (str "android \x7b\n    compileOptions \x7b\n        k\n    \x7d\n    " ++ (str "buildTypes" ++ (str " " ++ ('\x7b' :: (str "\n        release \x7b\n        \x7d" ++ (str "\n    \x7d" ++ str "\n\x7d\n")))))).tails,
        (str "buildTypes" ++ (str " " ++ ('\x7b' :: (str "\n        release \x7b\n        \x7d" ++ (str "\n    \x7d" ++ str "\n\x7d\n"))))).length < x.length →
        matchBT x = none := by decide
    exact fun s' hs hlen => hb s' ((List.mem_tails _ _).mpr hs) hlen
  have hmid : ∀ s', s' <:+ (str "\n        release \x7b\n        \x7d" ++ (str "\n    \x7d" ++ str "\n\x7d\n")) →
      (str "\n    \x7d" ++ str "\n\x7d\n").length < s'.length → dropLit (str "\n    \x7d") s' = none := by
    have hb : ∀ x ∈ (str "\n        release \x7b\n        \x7d" ++ (str "\n    \x7d" ++ str "\n\x7d\n")).tails,
        (str "\n    \x7d" ++ str "\n\x7d\n").length < x.length → dropLit (str "\n    \x7d") x = none := by decide
    exact fun s' hs hlen => hb s' ((List.mem_tails _ _).mpr hs) hlen
  have hA := step11_three_edits cRun sDemo
    (str "android \x7b\n    ") (str " ") (str "\n        k\n    \x7d\n    buildTypes \x7b\n        release \x7b\n        \x7d\n    \x7d\n\x7d\n")
    (str "android \x7b\n    compileOptions \x7b\n        k\n    \x7d\n    ") (str " ")
    (str "\n        release \x7b\n        \x7d") (str "\n\x7d\n")
    rfl (by decide) hco (by decide) hbt hmid
  have hB := step11_three_edits cRun sGradle
    (str "android \x7b\n    ") (str " ") (str "\n        k\n    \x7d\n    buildTypes \x7b\n        release \x7b\n        \x7d\n    \x7d\n\x7d\n")
    (str "android \x7b\n    compileOptions \x7b\n        k\n    \x7d\n    ") (str " ")
    (str "\n        release \x7b\n        \x7d") (str "\n\x7d\n")
    rfl (by decide) hco (by decide) hbt hmid
  exact ⟨hA.1, hA.2.1, hA.2.2.1 gradleDemoContent, hA.2.2.2.1 (by decide), hB.2.2.2.2 (by decide)⟩

/-- C9: if the build script exists, step 11 never fails: a sub-edit whose
pattern has no match anywhere in the text returns the text unchanged (a
silent no-op), and the dependencies block and the rules file are produced
unconditionally (the step returns ok with exactly the two writes, and the
patched text always ends with the appended dependencies block). -/
theorem step11_silent_noop (c : Ctx) (s : St) (t : Str)
    (hd : c.dryRun = false) (h : s.fs.pathExists (gradlePath c) = true) :
    (∃ s2, step11 c s = .ok s2 ∧
       s2.effects = s.effects ++
         [.fsWrite (gradlePath c) (patchGradle (s.fs.content (gradlePath c))),
          .fsWrite (proguardPath c) proguardContent]) ∧
    ((∀ s', s' <:+ t → matchCO s' = none) → applyCO t = t) ∧
    ((∀ s', s' <:+ t → matchBT s' = none) → applyBT t = t) ∧
    patchGradle t = trimEndL (applyBT (applyCO t)) ++ depsBlock := by
  refine ⟨?_, fun h2 => replaceFirst_id matchCO coRepl t h2,
    fun h2 => replaceFirst_id matchBT btRepl t h2, rfl⟩
  obtain ⟨s2, h1, h2, _⟩ := step11_present c s hd h
  exact ⟨s2, h1, h2⟩

/-- C9 witness: a build script whose text matches neither pattern is still
patched successfully, both sub-edits are no-ops on it, and both writes
happen. -/
theorem step11_silent_noop_witness :
    (∃ s2, step11 cRun sGradle = .ok s2 ∧
       s2.effects = sGradle.effects ++
         [.fsWrite (gradlePath cRun) (patchGradle (sGradle.fs.content (gradlePath cRun))),
          .fsWrite (proguardPath cRun) proguardContent]) ∧
    applyCO (str "hello") = str "hello" ∧
    applyBT (str "hello") = str "hello" ∧
    patchGradle (str "hello") = trimEndL (applyBT (applyCO (str "hello"))) ++ depsBlock := by
  have h := step11_silent_noop cRun sGradle (str "hello") rfl (by decide)
  have hco : ∀ s', s' <:+ (str "hello") → matchCO s' = none := by
    have hb : ∀ x ∈ (str "hello").tails, matchCO x = none := by decide
    exact fun s' hs => hb s' ((List.mem_tails _ _).mpr hs)
  have hbt : ∀ s', s' <:+ (str "hello") → matchBT s' = none := by
    have hb : ∀ x ∈ (str "hello").tails, matchBT x = none := by decide
    exact fun s' hs => hb s' ((List.mem_tails _ _).mpr hs)
  exact ⟨h.1, h.2.1 hco, h.2.2.1 hbt, h.2.2.2⟩

-- ─── Frame lemmas: effects grow append-only, existing paths persist ──

theorem frames_rfl (s : St) : Frames s s :=
  ⟨⟨[], by simp, by intro e he; exact absurd he (List.not_mem_nil e)⟩, fun _ h => h⟩

theorem frames_trans {s1 s2 s3 : St} (h1 : Frames s1 s2) (h2 : Frames s2 s3) : Frames s1 s3 := by
  obtain ⟨⟨d1, hd1, he1⟩, hf1⟩ := h1
  obtain ⟨⟨d2, hd2, he2⟩, hf2⟩ := h2
  refine ⟨⟨d1 ++ d2, ?_, ?_⟩, fun p hp => hf2 p (hf1 p hp)⟩
  · rw [hd2, hd1, List.append_assoc]
  · intro e he
    rcases List.mem_append.1 he with h | h
    · exact he1 e h
    · exact he2 e h

theorem frames_push (m : Str) (s : St) : Frames s (push m s) :=
  ⟨⟨[], by simp [push], by intro e he; exact absurd he (List.not_mem_nil e)⟩, fun _ h => h⟩

theorem frames_addEff (e0 : Effect) (s : St) (he : notFlutterProbe e0) :
    Frames s (addEff e0 s) :=
  ⟨⟨[e0], rfl, by intro e he2; rw [List.mem_singleton] at he2; subst he2; exact he⟩,
   fun _ h => h⟩

theorem frames_doWrite (pth t : Str) (s : St) : Frames s (doWrite pth t s) := by
  refine ⟨⟨[.fsWrite pth t], rfl, ?_⟩, ?_⟩
  · intro e he2
    rw [List.mem_singleton] at he2
    subst he2
    simp [notFlutterProbe]
  · intro p h
    show (if p = pth then true else s.fs.pathExists p) = true
    split
    · rfl
    · exact h

theorem frames_doMkdir (pth : Str) (s : St) : Frames s (doMkdir pth s) := by
  refine ⟨⟨[.fsMkdir pth], rfl, ?_⟩, ?_⟩
  · intro e he2
    rw [List.mem_singleton] at he2
    subst he2
    simp [notFlutterProbe]
  · intro p h
    show (if p = pth then true else s.fs.pathExists p) = true
    split
    · rfl
    · exact h

theorem setPath_mono (q : Str) (fs : FS) (p : Str) (h : fs.pathExists p = true) :
    (setPath q fs).pathExists p = true := by
  show (if p = q then true else fs.pathExists p) = true
  split
  · rfl
  · exact h

theorem cloneApply_mono (c : Ctx) (fs : FS) (p : Str) (h : fs.pathExists p = true) :
    (cloneApply c fs).pathExists p = true := by
  show (if p = projectDir c then true else
    match dropLit (projectDir c ++ str "/") p with
    | some rel => c.cloned rel || fs.pathExists p
    | none => fs.pathExists p) = true
  split
  · rfl
  · cases hd : dropLit (projectDir c ++ str "/") p <;> simp [h]

theorem frames_runCmd (c : Ctx) (cmd : Str) (args : List Str) (cwd : Option Str)
    (env : List (Str × Str)) (fsEff : FS → FS) (s : St)
    (hf : ∀ fs p, fs.pathExists p = true → (fsEff fs).pathExists p = true) :
    Frames s (resSt (runCmd c cmd args cwd env fsEff s)) := by
  unfold runCmd
  by_cases h : c.oracle (addEff (.spawn cmd args cwd env) s).k = true
  · simp only [h, if_true]
    refine ⟨⟨[.spawn cmd args cwd env], rfl, ?_⟩, ?_⟩
    · intro e he
      rw [List.mem_singleton] at he
      subst he
      simp [notFlutterProbe]
    · intro p hp
      exact hf s.fs p hp
  · simp only [h, if_false]
    refine ⟨⟨[.spawn cmd args cwd env], rfl, ?_⟩, fun _ hp => hp⟩
    intro e he
    rw [List.mem_singleton] at he
    subst he
    simp [notFlutterProbe]

theorem frames_mapR_push (r : Res) (m : Str) (s : St) (hr : Frames s (resSt r)) :
    Frames s (resSt (mapR r (push m))) := by
  cases r with
  | error e => exact hr
  | ok s1 => exact frames_trans hr (frames_push m s1)

theorem frames_bindR (r : Res) (f : St → Res) (s : St) (hr : Frames s (resSt r))
    (hf : ∀ s0, Frames s0 (resSt (f s0))) : Frames s (resSt (bindR r f)) := by
  cases r with
  | error e => exact hr
  | ok s1 => exact frames_trans hr (hf s1)

theorem frames_runInteractive (c : Ctx) (cmd : Str) (args : List Str) (cwd : Option Str)
    (s : St) : Frames s (resSt (runInteractive c cmd args cwd s)) := by
  unfold runInteractive
  by_cases h : c.expectAvail = true
  · simp only [h, if_true]
    exact frames_trans (frames_addEff _ s (by simp only [notFlutterProbe]; intro hx; simp only [Effect.probe.injEq] at hx; exact absurd hx (by decide)))
      (frames_runCmd c _ _ _ _ _ _ (fun _ _ hp => hp))
  · simp only [h, if_false]
    exact frames_trans (frames_addEff _ s (by simp only [notFlutterProbe]; intro hx; simp only [Effect.probe.injEq] at hx; exact absurd hx (by decide)))
      (frames_runCmd c _ _ _ _ _ _ (fun _ _ hp => hp))

theorem frames_step1 (c : Ctx) (s : St) : Frames s (resSt (step1 c s)) := by
  cases hd : c.dryRun <;> simp only [step1, hd, if_true, if_false, Bool.false_eq_true]
  · exact frames_trans (frames_push _ s)
      (frames_mapR_push _ _ _ (frames_runCmd c _ _ _ _ _ _ (fun _ _ hp => hp)))
  · exact frames_trans (frames_push _ s)
      (frames_trans (frames_push _ _) (frames_push _ _))

theorem frames_step2 (c : Ctx) (s : St) : Frames s (resSt (step2 c s)) := by
  cases hd : c.dryRun <;> simp only [step2, hd, if_true, if_false, Bool.false_eq_true]
  · exact frames_trans (frames_push _ s)
      (frames_mapR_push _ _ _ (frames_runCmd c _ _ _ _ _ _ (cloneApply_mono c)))
  · exact frames_trans (frames_push _ s)
      (frames_trans (frames_push _ _) (frames_push _ _))

theorem frames_step3 (c : Ctx) (s : St) : Frames s (resSt (step3 c s)) := by
  cases hd : c.dryRun <;> simp only [step3, hd, if_true, if_false, Bool.false_eq_true]
  · apply frames_bindR
    · by_cases hg : (push (stepMsg 3 (str "Initialising Git repository")) s).fs.pathExists (gitDirPath c) = true
      · simp only [hg, if_true]
        exact frames_trans (frames_push _ s) (frames_push _ _)
      · simp only [hg, if_false]
        exact frames_trans (frames_push _ s)
          (frames_mapR_push _ _ _ (frames_runCmd c _ _ _ _ _ _ (setPath_mono _)))
    · intro s0
      by_cases hh : s0.fs.pathExists (githooksPath c) = true
      · simp only [hh, if_true]
        exact frames_mapR_push _ _ _ (frames_runCmd c _ _ _ _ _ _ (fun _ _ hp => hp))
      · simp only [hh, if_false]
        exact frames_push _ s0
  · exact frames_trans (frames_push _ s)
      (frames_trans (frames_push _ _) (frames_push _ _))

theorem frames_step4 (c : Ctx) (s : St) : Frames s (resSt (step4 c s)) := by
  cases hd : c.dryRun <;> simp only [step4, hd, if_true, if_false, Bool.false_eq_true]
  · exact frames_trans (frames_push _ s)
      (frames_mapR_push _ _ _ (frames_runCmd c _ _ _ _ _ _ (fun _ _ hp => hp)))
  · exact frames_trans (frames_push _ s)
      (frames_trans (frames_push _ _) (frames_push _ _))

theorem frames_step5 (c : Ctx) (s : St) : Frames s (resSt (step5 c s)) := by
  cases hd : c.dryRun <;> simp only [step5, hd, if_true, if_false, Bool.false_eq_true]
  · exact frames_trans (frames_push _ s)
      (frames_mapR_push _ _ _ (frames_runCmd c _ _ _ _ _ _ (fun _ _ hp => hp)))
  · exact frames_trans (frames_push _ s)
      (frames_trans (frames_push _ _) (frames_push _ _))

theorem frames_step6 (c : Ctx) (s : St) : Frames s (resSt (step6 c s)) := by
  cases hd : c.dryRun <;> simp only [step6, hd, if_true, if_false, Bool.false_eq_true]
  · by_cases hx : (push (stepMsg 6 (str "Updating flavorizr.yaml")) s).fs.pathExists (flavorizrPath c) = true
    · simp only [hx, if_true]
      exact frames_trans (frames_push _ s)
        (frames_trans (frames_doWrite _ _ _) (frames_push _ _))
    · simp only [hx, if_false]
      exact frames_push _ s
  · exact frames_trans (frames_push _ s)
      (frames_trans (frames_push _ _) (frames_push _ _))

theorem frames_step7 (c : Ctx) (s : St) : Frames s (resSt (step7 c s)) := by
  cases hd : c.dryRun <;> simp only [step7, hd, if_true, if_false, Bool.false_eq_true]
  · apply frames_bindR
    · exact frames_trans (frames_push _ s)
        (frames_runCmd c _ _ _ _ _ _ (fun _ _ hp => hp))
    · intro s0
      exact frames_mapR_push _ _ _ (frames_runCmd c _ _ _ _ _ _ (fun _ _ hp => hp))
  · exact frames_trans (frames_push _ s)
      (frames_trans (frames_push _ _) (frames_push _ _))

theorem frames_step8 (c : Ctx) (s : St) : Frames s (resSt (step8 c s)) := by
  cases hd : c.dryRun <;> simp only [step8, hd, if_true, if_false, Bool.false_eq_true]
  · exact frames_trans (frames_push _ s)
      (frames_mapR_push _ _ _ (frames_runInteractive c _ _ _ _))
  · exact frames_trans (frames_push _ s)
      (frames_trans (frames_push _ _) (frames_trans (frames_push _ _) (frames_push _ _)))

theorem frames_step9 (c : Ctx) (s : St) : Frames s (resSt (step9 c s)) := by
  cases hd : c.dryRun <;> simp only [step9, hd, if_true, if_false, Bool.false_eq_true]
  · exact frames_trans (frames_push _ s)
      (frames_mapR_push _ _ _ (frames_runCmd c _ _ _ _ _ _ (fun _ _ hp => hp)))
  · exact frames_trans (frames_push _ s)
      (frames_trans (frames_push _ _) (frames_push _ _))

theorem frames_step10 (c : Ctx) (s : St) : Frames s (resSt (step10 c s)) := by
  cases hd : c.dryRun <;> simp only [step10, hd, if_true, if_false, Bool.false_eq_true]
  · exact frames_trans (frames_push _ s)
      (frames_trans (frames_doMkdir _ _)
        (frames_trans (frames_doWrite _ _ _)
          (frames_trans (frames_doWrite _ _ _)
            (frames_trans (frames_doWrite _ _ _) (frames_push _ _)))))
  · exact frames_trans (frames_push _ s)
      (frames_trans (frames_push _ _) (frames_trans (frames_push _ _) (frames_push _ _)))

theorem frames_step11 (c : Ctx) (s : St) : Frames s (resSt (step11 c s)) := by
  cases hd : c.dryRun <;> simp only [step11, hd, if_true, if_false, Bool.false_eq_true]
  · by_cases hx : (push (stepMsg 11 (str "Configuring Android build (desugaring, HMS, ProGuard)")) s).fs.pathExists (gradlePath c) = true
    · simp only [hx, if_true]
      exact frames_trans (frames_push _ s)
        (frames_trans (frames_doWrite _ _ _)
          (frames_trans (frames_push _ _)
            (frames_trans (frames_doWrite _ _ _) (frames_push _ _))))
    · simp only [hx, if_false]
      exact frames_push _ s
  · exact frames_trans (frames_push _ s)
      (frames_trans (frames_push _ _) (frames_push _ _))

theorem frames_finishSt (c : Ctx) (s : St) : Frames s (finishSt c s) := by
  cases hd : c.dryRun <;> simp only [finishSt, hd, if_true, if_false, Bool.false_eq_true]
  · exact frames_trans (frames_push _ s)
      (frames_trans (frames_push _ _)
        (frames_trans (frames_push _ _)
          (frames_trans (frames_push _ _) (frames_push _ _))))
  · exact frames_push _ s

theorem frames_runSteps (c : Ctx) (s : St) : Frames s (resSt (runSteps c s)) := by
  unfold runSteps
  apply frames_bindR _ _ _ (frames_step1 c s)
  intro s1
  apply frames_bindR _ _ _ (frames_step2 c s1)
  intro s2
  apply frames_bindR _ _ _ (frames_step3 c s2)
  intro s3
  apply frames_bindR _ _ _ (frames_step4 c s3)
  intro s4
  apply frames_bindR _ _ _ (frames_step5 c s4)
  intro s5
  apply frames_bindR _ _ _ (frames_step6 c s5)
  intro s6
  apply frames_bindR _ _ _ (frames_step7 c s6)
  intro s7
  apply frames_bindR _ _ _ (frames_step8 c s7)
  intro s8
  apply frames_bindR _ _ _ (frames_step9 c s8)
  intro s9
  apply frames_bindR _ _ _ (frames_step10 c s9)
  intro s10
  apply frames_bindR _ _ _ (frames_step11 c s10)
  intro s11
  exact frames_finishSt c s11

-- ─── Error-message shapes of the eleven steps ────────────────────────

theorem mapR_err (r : Res) (g : St → St) (f : Fail) (h : mapR r g = .error f) :
    r = .error f := by
  cases r <;> simp_all [mapR]

theorem bindR_err (r : Res) (k : St → Res) (f : Fail) (h : bindR r k = .error f) :
    r = .error f ∨ ∃ s0, r = .ok s0 ∧ k s0 = .error f := by
  cases r with
  | error e =>
    simp only [bindR, Except.error.injEq] at h
    subst h
    exact Or.inl rfl
  | ok s0 => exact Or.inr ⟨s0, rfl, h⟩

theorem bindR_ok (r : Res) (k : St → Res) (s2 : St) (h : bindR r k = .ok s2) :
    ∃ s0, r = .ok s0 ∧ k s0 = .ok s2 := by
  cases r with
  | error e => simp [bindR] at h
  | ok s0 => exact ⟨s0, rfl, h⟩

theorem runCmd_err_msg (c : Ctx) (cmd : Str) (args : List Str) (cwd : Option Str)
    (env : List (Str × Str)) (fsEff : FS → FS) (s : St) (f : Fail)
    (h : runCmd c cmd args cwd env fsEff s = .error f) :
    ∃ r, f.msg = str "Command failed: " ++ r := by
  unfold runCmd at h
  by_cases ho : c.oracle (addEff (.spawn cmd args cwd env) s).k = true
  · rw [if_pos ho] at h
    exact absurd h (by simp [okS])
  · rw [if_neg ho] at h
    simp only [throwE, Except.error.injEq] at h
    subst h
    exact ⟨cmd ++ (str " " ++ (joinSp args ++ (str "\n" ++
      c.oracleOut (addEff (.spawn cmd args cwd env) s).k))),
      by simp [cmdFailMsg, List.append_assoc]⟩

theorem runInteractive_err_msg (c : Ctx) (cmd : Str) (args : List Str) (cwd : Option Str)
    (s : St) (f : Fail) (h : runInteractive c cmd args cwd s = .error f) :
    ∃ r, f.msg = str "Command failed: " ++ r := by
  unfold runInteractive at h
  by_cases he : c.expectAvail = true
  · rw [if_pos he] at h
    exact runCmd_err_msg _ _ _ _ _ _ _ _ h
  · rw [if_neg he] at h
    exact runCmd_err_msg _ _ _ _ _ _ _ _ h

theorem step1_err (c : Ctx) (s : St) (f : Fail) (h : step1 c s = .error f) :
    stepErrShape f.msg := by
  unfold step1 at h
  by_cases hd : c.dryRun = true
  · rw [if_pos hd] at h
    exact absurd h (by simp [okS])
  · rw [if_neg hd] at h
    exact Or.inl (runCmd_err_msg _ _ _ _ _ _ _ _ (mapR_err _ _ _ h))

theorem step2_err (c : Ctx) (s : St) (f : Fail) (h : step2 c s = .error f) :
    stepErrShape f.msg := by
  unfold step2 at h
  by_cases hd : c.dryRun = true
  · rw [if_pos hd] at h
    exact absurd h (by simp [okS])
  · rw [if_neg hd] at h
    exact Or.inl (runCmd_err_msg _ _ _ _ _ _ _ _ (mapR_err _ _ _ h))

theorem step3_err (c : Ctx) (s : St) (f : Fail) (h : step3 c s = .error f) :
    stepErrShape f.msg := by
  unfold step3 at h
  by_cases hd : c.dryRun = true
  · rw [if_pos hd] at h
    exact absurd h (by simp [okS])
  · rw [if_neg hd] at h
    rcases bindR_err _ _ _ h with h1 | ⟨s0, _, h1⟩
    · by_cases hg : (push (stepMsg 3 (str "Initialising Git repository")) s).fs.pathExists (gitDirPath c) = true
      · rw [if_pos hg] at h1
        exact absurd h1 (by simp [okS])
      · rw [if_neg hg] at h1
        exact Or.inl (runCmd_err_msg _ _ _ _ _ _ _ _ (mapR_err _ _ _ h1))
    · by_cases hh : s0.fs.pathExists (githooksPath c) = true
      · rw [if_pos hh] at h1
        exact Or.inl (runCmd_err_msg _ _ _ _ _ _ _ _ (mapR_err _ _ _ h1))
      · rw [if_neg hh] at h1
        exact absurd h1 (by simp [okS])

theorem step4_err (c : Ctx) (s : St) (f : Fail) (h : step4 c s = .error f) :
    stepErrShape f.msg := by
  unfold step4 at h
  by_cases hd : c.dryRun = true
  · rw [if_pos hd] at h
    exact absurd h (by simp [okS])
  · rw [if_neg hd] at h
    exact Or.inl (runCmd_err_msg _ _ _ _ _ _ _ _ (mapR_err _ _ _ h))

theorem step5_err (c : Ctx) (s : St) (f : Fail) (h : step5 c s = .error f) :
    stepErrShape f.msg := by
  unfold step5 at h
  by_cases hd : c.dryRun = true
  · rw [if_pos hd] at h
    exact absurd h (by simp [okS])
  · rw [if_neg hd] at h
    exact Or.inl (runCmd_err_msg _ _ _ _ _ _ _ _ (mapR_err _ _ _ h))

theorem step6_err (c : Ctx) (s : St) (f : Fail) (h : step6 c s = .error f) :
    stepErrShape f.msg := by
  unfold step6 at h
  by_cases hd : c.dryRun = true
  · rw [if_pos hd] at h
    exact absurd h (by simp [okS])
  · rw [if_neg hd] at h
    by_cases hx : (push (stepMsg 6 (str "Updating flavorizr.yaml")) s).fs.pathExists (flavorizrPath c) = true
    · rw [if_pos hx] at h
      exact absurd h (by simp [okS])
    · rw [if_neg hx] at h
      simp only [throwE, Except.error.injEq] at h
      subst h
      exact Or.inr (Or.inl ⟨flavorizrPath c, rfl⟩)

theorem step7_err (c : Ctx) (s : St) (f : Fail) (h : step7 c s = .error f) :
    stepErrShape f.msg := by
  unfold step7 at h
  by_cases hd : c.dryRun = true
  · rw [if_pos hd] at h
    exact absurd h (by simp [okS])
  · rw [if_neg hd] at h
    rcases bindR_err _ _ _ h with h1 | ⟨s0, _, h1⟩
    · exact Or.inl (runCmd_err_msg _ _ _ _ _ _ _ _ h1)
    · exact Or.inl (runCmd_err_msg _ _ _ _ _ _ _ _ (mapR_err _ _ _ h1))

theorem step8_err (c : Ctx) (s : St) (f : Fail) (h : step8 c s = .error f) :
    stepErrShape f.msg := by
  unfold step8 at h
  by_cases hd : c.dryRun = true
  · rw [if_pos hd] at h
    exact absurd h (by simp [okS])
  · rw [if_neg hd] at h
    exact Or.inl (runInteractive_err_msg _ _ _ _ _ _ (mapR_err _ _ _ h))

theorem step9_err (c : Ctx) (s : St) (f : Fail) (h : step9 c s = .error f) :
    stepErrShape f.msg := by
  unfold step9 at h
  by_cases hd : c.dryRun = true
  · rw [if_pos hd] at h
    exact absurd h (by simp [okS])
  · rw [if_neg hd] at h
    exact Or.inl (runCmd_err_msg _ _ _ _ _ _ _ _ (mapR_err _ _ _ h))

theorem step10_err (c : Ctx) (s : St) (f : Fail) (h : step10 c s = .error f) :
    stepErrShape f.msg := by
  unfold step10 at h
  by_cases hd : c.dryRun = true
  · rw [if_pos hd] at h
    exact absurd h (by simp [okS])
  · rw [if_neg hd] at h
    exact absurd h (by simp [okS])

theorem step11_err (c : Ctx) (s : St) (f : Fail) (h : step11 c s = .error f) :
    stepErrShape f.msg := by
  unfold step11 at h
  by_cases hd : c.dryRun = true
  · rw [if_pos hd] at h
    exact absurd h (by simp [okS])
  · rw [if_neg hd] at h
    by_cases hx : (push (stepMsg 11 (str "Configuring Android build (desugaring, HMS, ProGuard)")) s).fs.pathExists (gradlePath c) = true
    · rw [if_pos hx] at h
      exact absurd h (by simp [okS])
    · rw [if_neg hx] at h
      simp only [throwE, Except.error.injEq] at h
      subst h
      exact Or.inr (Or.inr ⟨gradlePath c, rfl⟩)

theorem runSteps_err (c : Ctx) (s : St) (f : Fail) (h : runSteps c s = .error f) :
    stepErrShape f.msg := by
  unfold runSteps at h
  rcases bindR_err _ _ _ h with h1 | ⟨s1, _, h⟩
  · exact step1_err _ _ _ h1
  rcases bindR_err _ _ _ h with h1 | ⟨s2, _, h⟩
  · exact step2_err _ _ _ h1
  rcases bindR_err _ _ _ h with h1 | ⟨s3, _, h⟩
  · exact step3_err _ _ _ h1
  rcases bindR_err _ _ _ h with h1 | ⟨s4, _, h⟩
  · exact step4_err _ _ _ h1
  rcases bindR_err _ _ _ h with h1 | ⟨s5, _, h⟩
  · exact step5_err _ _ _ h1
  rcases bindR_err _ _ _ h with h1 | ⟨s6, _, h⟩
  · exact step6_err _ _ _ h1
  rcases bindR_err _ _ _ h with h1 | ⟨s7, _, h⟩
  · exact step7_err _ _ _ h1
  rcases bindR_err _ _ _ h with h1 | ⟨s8, _, h⟩
  · exact step8_err _ _ _ h1
  rcases bindR_err _ _ _ h with h1 | ⟨s9, _, h⟩
  · exact step9_err _ _ _ h1
  rcases bindR_err _ _ _ h with h1 | ⟨s10, _, h⟩
  · exact step10_err _ _ _ h1
  rcases bindR_err _ _ _ h with h1 | ⟨s11, _, h⟩
  · exact step11_err _ _ _ h1
  · exact absurd h (by simp [okS])

theorem stepErrShape_ne_toolchain (m : Str) (h : stepErrShape m) : m ≠ toolchainMsg := by
  rcases h with ⟨r, rfl⟩ | ⟨r, rfl⟩ | ⟨r, rfl⟩ <;> intro hEq
  · have h1 : (str "Command failed: " ++ r).head? = some 'C' := rfl
    rw [hEq] at h1
    exact absurd h1 (by decide)
  · have h1 : (str "flavorizr.yaml not found at " ++ r).head? = some 'f' := rfl
    rw [hEq] at h1
    exact absurd h1 (by decide)
  · have h1 : (str "android/app/build.gradle.kts not found at " ++ r).head? = some 'a' := rfl
    rw [hEq] at h1
    exact absurd h1 (by decide)

theorem dirMsg_ne_toolchain (pd : Str) : dirMsg pd ≠ toolchainMsg := by
  intro h
  have h1 : (dirMsg pd).head? = some 'D' := rfl
  rw [h] at h1
  exact absurd h1 (by decide)

theorem gitMsg_ne_toolchain : gitMsg ≠ toolchainMsg := by decide

-- ─── Header and pre-flight analysis ──────────────────────────────────

theorem headerSt_effects (c : Ctx) (fs0 : FS) :
    (headerSt c fs0).effects = [.probe (str "fvm"), .probe (str "git")] := by
  cases hd : c.dryRun <;> simp [headerSt, push, addEff, hd]

theorem headerSt_fs (c : Ctx) (fs0 : FS) : (headerSt c fs0).fs = fs0 := by
  cases hd : c.dryRun <;> simp [headerSt, push, addEff, hd]

theorem headerSt_log (c : Ctx) (fs0 : FS) (hd : c.dryRun = false) :
    (headerSt c fs0).log = headerLines c := by
  simp [headerSt, push, addEff, hd, headerLines]

theorem preflight_outcome (c : Ctx) (s : St) (hd : c.dryRun = false) :
    (c.fvm = false → c.flutter = false →
      preflightChecks c s = .error ⟨toolchainMsg, addEff (.probe (str "flutter")) s⟩) ∧
    ((c.fvm = true ∨ c.flutter = true) → c.git = false →
      ∃ s2, preflightChecks c s = .error ⟨gitMsg, s2⟩ ∧ s2.log = s.log) ∧
    ((c.fvm = true ∨ c.flutter = true) → c.git = true →
      s.fs.pathExists (projectDir c) = true →
      ∃ s2, preflightChecks c s = .error ⟨dirMsg (projectDir c), s2⟩ ∧ s2.log = s.log) ∧
    ((c.fvm = true ∨ c.flutter = true) → c.git = true →
      s.fs.pathExists (projectDir c) = false →
      ∃ s2, preflightChecks c s = .ok s2 ∧ s2.log = s.log ∧ s2.fs = s.fs ∧
        (s2.effects = s.effects ∨ s2.effects = s.effects ++ [.probe (str "flutter")])) := by
  refine ⟨fun h1 h2 => ?_, fun hor hg => ?_, fun hor hg hx => ?_, fun hor hg hx => ?_⟩
  · simp [preflightChecks, hd, h1, h2, throwE]
  · by_cases h1 : c.fvm = true
    · exact ⟨s, by simp [preflightChecks, hd, h1, hg, throwE], rfl⟩
    · have h2 : c.flutter = true := hor.resolve_left h1
      exact ⟨addEff (.probe (str "flutter")) s,
        by simp [preflightChecks, hd, h1, h2, hg, throwE], rfl⟩
  · by_cases h1 : c.fvm = true
    · exact ⟨s, by simp [preflightChecks, hd, h1, hg, hx, throwE], rfl⟩
    · have h2 : c.flutter = true := hor.resolve_left h1
      refine ⟨addEff (.probe (str "flutter")) s, ?_, rfl⟩
      have hx2 : (addEff (.probe (str "flutter")) s).fs.pathExists (projectDir c) = true := hx
      simp [preflightChecks, hd, h1, h2, hg, hx2, throwE]
  · by_cases h1 : c.fvm = true
    · exact ⟨s, by simp [preflightChecks, hd, h1, hg, hx, okS], rfl, rfl, Or.inl rfl⟩
    · have h2 : c.flutter = true := hor.resolve_left h1
      refine ⟨addEff (.probe (str "flutter")) s, ?_, rfl, rfl, Or.inr rfl⟩
      have hx2 : (addEff (.probe (str "flutter")) s).fs.pathExists (projectDir c) = false := hx
      simp [preflightChecks, hd, h1, h2, hg, hx2, okS]

theorem preflight_ok_inv (c : Ctx) (s s2 : St) (hd : c.dryRun = false)
    (h : preflightChecks c s = .ok s2) :
    (c.fvm = true ∨ c.flutter = true) ∧ c.git = true ∧
    s.fs.pathExists (projectDir c) = false ∧ s2.fs = s.fs ∧ s2.log = s.log := by
  simp only [preflightChecks, hd, Bool.false_eq_true, if_false] at h
  by_cases h1 : c.fvm = true
  · rw [if_pos h1] at h
    by_cases h2 : c.git = true
    · rw [if_pos h2] at h
      by_cases h3 : s.fs.pathExists (projectDir c) = true
      · rw [if_pos h3] at h
        exact absurd h (by simp [throwE])
      · rw [if_neg h3] at h
        simp only [okS, Except.ok.injEq] at h
        subst h
        exact ⟨Or.inl h1, h2, by simpa using h3, rfl, rfl⟩
    · rw [if_neg h2] at h
      exact absurd h (by simp [throwE])
  · rw [if_neg h1] at h
    by_cases h2 : c.flutter = true
    · rw [if_pos h2] at h
      by_cases h3 : c.git = true
      · rw [if_pos h3] at h
        by_cases h4 : (addEff (.probe (str "flutter")) s).fs.pathExists (projectDir c) = true
        · rw [if_pos h4] at h
          exact absurd h (by simp [throwE])
        · rw [if_neg h4] at h
          simp only [okS, Except.ok.injEq] at h
          subst h
          exact ⟨Or.inr h2, h3, by simpa using h4, rfl, rfl⟩
      · rw [if_neg h3] at h
        exact absurd h (by simp [throwE])
    · rw [if_neg h2] at h
      exact absurd h (by simp [throwE])

theorem preflight_err_msgs (c : Ctx) (s : St) (f : Fail) (hd : c.dryRun = false)
    (h : preflightChecks c s = .error f) :
    (f.msg = toolchainMsg ∧ c.fvm = false ∧ c.flutter = false) ∨
    f.msg = gitMsg ∨ f.msg = dirMsg (projectDir c) := by
  simp only [preflightChecks, hd, Bool.false_eq_true, if_false] at h
  by_cases h1 : c.fvm = true
  · rw [if_pos h1] at h
    by_cases h2 : c.git = true
    · rw [if_pos h2] at h
      by_cases h3 : s.fs.pathExists (projectDir c) = true
      · rw [if_pos h3] at h
        simp only [throwE, Except.error.injEq] at h
        subst h
        exact Or.inr (Or.inr rfl)
      · rw [if_neg h3] at h
        exact absurd h (by simp [okS])
    · rw [if_neg h2] at h
      simp only [throwE, Except.error.injEq] at h
      subst h
      exact Or.inr (Or.inl rfl)
  · rw [if_neg h1] at h
    by_cases h2 : c.flutter = true
    · rw [if_pos h2] at h
      by_cases h3 : c.git = true
      · rw [if_pos h3] at h
        by_cases h4 : (addEff (.probe (str "flutter")) s).fs.pathExists (projectDir c) = true
        · rw [if_pos h4] at h
          simp only [throwE, Except.error.injEq] at h
          subst h
          exact Or.inr (Or.inr rfl)
        · rw [if_neg h4] at h
          exact absurd h (by simp [okS])
      · rw [if_neg h3] at h
        simp only [throwE, Except.error.injEq] at h
        subst h
        exact Or.inr (Or.inl rfl)
    · rw [if_neg h2] at h
      simp only [throwE, Except.error.injEq] at h
      subst h
      exact Or.inl ⟨rfl, by simpa using h1, by simpa using h2⟩

theorem frames_preflight_fvm (c : Ctx) (s : St) (hf : c.fvm = true) :
    Frames s (resSt (preflightChecks c s)) := by
  by_cases hd : c.dryRun = true
  · simp only [preflightChecks, hd, if_true]
    exact frames_push _ s
  · simp only [preflightChecks, hd, if_false, hf, if_true]
    by_cases hg : c.git = true
    · rw [if_pos hg]
      by_cases hx : s.fs.pathExists (projectDir c) = true
      · rw [if_pos hx]
        exact frames_rfl s
      · rw [if_neg hx]
        exact frames_rfl s
    · rw [if_neg hg]
      exact frames_rfl s

/-- C10: in non-dry-run mode, the missing-toolchain pre-flight error is
raised iff both the `fvm` probe and the direct `flutter` probe report
absence; when the wrapper is detected, the direct `flutter` probe is never
performed and the whole run is independent of whether a direct `flutter`
executable exists — the toolchain check passes on the wrapper's presence
alone. -/
theorem toolchain_preflight_contract (c : Ctx) (fs0 : FS) (hd : c.dryRun = false) :
    ((∃ f, pipelineRun c fs0 = .error f ∧ f.msg = toolchainMsg) ↔
      (c.fvm = false ∧ c.flutter = false)) ∧
    (c.fvm = true →
      Effect.probe (str "flutter") ∉ (resSt (pipelineRun c fs0)).effects ∧
      ∀ b, pipelineRun { c with flutter := b } fs0 = pipelineRun c fs0) := by
  constructor
  · constructor
    · rintro ⟨f, hpf, hmsg⟩
      rcases bindR_err _ _ _ hpf with h1 | ⟨s0, _, h1⟩
      · rcases preflight_err_msgs c _ f hd h1 with ⟨_, hfv, hfl⟩ | hgit | hdir
        · exact ⟨hfv, hfl⟩
        · exact absurd (hgit.symm.trans hmsg) gitMsg_ne_toolchain
        · exact absurd (hdir.symm.trans hmsg) (dirMsg_ne_toolchain _)
      · exact absurd hmsg (stepErrShape_ne_toolchain _ (runSteps_err c s0 f h1))
    · rintro ⟨hfv, hfl⟩
      have h1 := (preflight_outcome c (headerSt c fs0) hd).1 hfv hfl
      exact ⟨⟨toolchainMsg, addEff (.probe (str "flutter")) (headerSt c fs0)⟩,
        by simp [pipelineRun, h1, bindR], rfl⟩
  · intro hf
    constructor
    · have hFr : Frames (headerSt c fs0) (resSt (pipelineRun c fs0)) := by
        unfold pipelineRun
        exact frames_bindR _ _ _ (frames_preflight_fvm c _ hf) (fun s0 => frames_runSteps c s0)
      obtain ⟨⟨d, hdApp, hsafe⟩, _⟩ := hFr
      rw [hdApp, headerSt_effects]
      intro hmem
      rcases List.mem_append.1 hmem with h | h
      · exact absurd h (by decide)
      · exact hsafe _ h rfl
    · intro b
      unfold pipelineRun
      have h3 : preflightChecks { c with flutter := b } (headerSt { c with flutter := b } fs0) =
          preflightChecks c (headerSt c fs0) := by
        simp [preflightChecks, headerSt, hd, hf, projectDir]
      rw [h3]
      cases h4 : preflightChecks c (headerSt c fs0) with
      | error e => simp [bindR]
      | ok s0 =>
        simp only [bindR]
        rfl

/-- C10 witness: with the wrapper absent and no direct flutter the pipeline
fails with the toolchain message; with the wrapper present no flutter probe
occurs and the run does not depend on the flutter flag. -/
theorem toolchain_preflight_contract_witness :
    (∃ f, pipelineRun { cRun with fvm := false, flutter := false } fsNone = .error f ∧
      f.msg = toolchainMsg) ∧
    Effect.probe (str "flutter") ∉ (resSt (pipelineRun cRun fsNone)).effects ∧
    pipelineRun { cRun with flutter := false } fsNone = pipelineRun cRun fsNone :=
  ⟨(toolchain_preflight_contract { cRun with fvm := false, flutter := false } fsNone rfl).1.mpr
      ⟨rfl, rfl⟩,
   ((toolchain_preflight_contract cRun fsNone rfl).2 rfl).1,
   ((toolchain_preflight_contract cRun fsNone rfl).2 rfl).2 false⟩

-- ─── Success-path inversions ─────────────────────────────────────────

theorem mapR_ok (r : Res) (g : St → St) (s2 : St) (h : mapR r g = .ok s2) :
    ∃ s0, r = .ok s0 ∧ g s0 = s2 := by
  cases r with
  | error e => simp [mapR] at h
  | ok s0 =>
    simp only [mapR, Except.ok.injEq] at h
    exact ⟨s0, rfl, h⟩

theorem runCmd_ok_fs (c : Ctx) (cmd : Str) (args : List Str) (cwd : Option Str)
    (env : List (Str × Str)) (fsEff : FS → FS) (s s1 : St)
    (h : runCmd c cmd args cwd env fsEff s = .ok s1) : s1.fs = fsEff s.fs := by
  unfold runCmd at h
  by_cases ho : c.oracle (addEff (.spawn cmd args cwd env) s).k = true
  · rw [if_pos ho] at h
    simp only [okS, Except.ok.injEq] at h
    subst h
    rfl
  · rw [if_neg ho] at h
    simp [throwE] at h

theorem cloneApply_pd (c : Ctx) (fs : FS) :
    (cloneApply c fs).pathExists (projectDir c) = true := by
  simp [cloneApply]

theorem step2_ok_dir (c : Ctx) (s s2 : St) (hd : c.dryRun = false)
    (h : step2 c s = .ok s2) : s2.fs.pathExists (projectDir c) = true := by
  unfold step2 at h
  rw [if_neg (by simp [hd])] at h
  obtain ⟨s0, hr, hpush⟩ := mapR_ok _ _ _ h
  have hfs := runCmd_ok_fs _ _ _ _ _ _ _ _ hr
  subst hpush
  show s0.fs.pathExists (projectDir c) = true
  rw [hfs]
  exact cloneApply_pd c _

theorem frames_of_ok {s s2 : St} (r : Res) (h : r = .ok s2)
    (hFr : Frames s (resSt r)) : Frames s s2 := by
  rw [h] at hFr
  exact hFr

theorem runSteps_ok_dir (c : Ctx) (s sF : St) (hd : c.dryRun = false)
    (h : runSteps c s = .ok sF) : sF.fs.pathExists (projectDir c) = true := by
  unfold runSteps at h
  obtain ⟨s1, h1, h⟩ := bindR_ok _ _ _ h
  obtain ⟨s2, h2, h⟩ := bindR_ok _ _ _ h
  obtain ⟨s3, h3, h⟩ := bindR_ok _ _ _ h
  obtain ⟨s4, h4, h⟩ := bindR_ok _ _ _ h
  obtain ⟨s5, h5, h⟩ := bindR_ok _ _ _ h
  obtain ⟨s6, h6, h⟩ := bindR_ok _ _ _ h
  obtain ⟨s7, h7, h⟩ := bindR_ok _ _ _ h
  obtain ⟨s8, h8, h⟩ := bindR_ok _ _ _ h
  obtain ⟨s9, h9, h⟩ := bindR_ok _ _ _ h
  obtain ⟨s10, h10, h⟩ := bindR_ok _ _ _ h
  obtain ⟨s11, h11, h⟩ := bindR_ok _ _ _ h
  have hdir2 : s2.fs.pathExists (projectDir c) = true := step2_ok_dir c s1 s2 hd h2
  have hF3 : Frames s2 s3 := frames_of_ok _ h3 (frames_step3 c s2)
  have hF4 : Frames s3 s4 := frames_of_ok _ h4 (frames_step4 c s3)
  have hF5 : Frames s4 s5 := frames_of_ok _ h5 (frames_step5 c s4)
  have hF6 : Frames s5 s6 := frames_of_ok _ h6 (frames_step6 c s5)
  have hF7 : Frames s6 s7 := frames_of_ok _ h7 (frames_step7 c s6)
  have hF8 : Frames s7 s8 := frames_of_ok _ h8 (frames_step8 c s7)
  have hF9 : Frames s8 s9 := frames_of_ok _ h9 (frames_step9 c s8)
  have hF10 : Frames s9 s10 := frames_of_ok _ h10 (frames_step10 c s9)
  have hF11 : Frames s10 s11 := frames_of_ok _ h11 (frames_step11 c s10)
  have hfin : sF = finishSt c s11 := by
    simp only [okS, Except.ok.injEq] at h
    exact h.symm
  have hFall : Frames s2 sF := by
    rw [hfin]
    exact frames_trans hF3 (frames_trans hF4 (frames_trans hF5 (frames_trans hF6
      (frames_trans hF7 (frames_trans hF8 (frames_trans hF9 (frames_trans hF10
        (frames_trans hF11 (frames_finishSt c s11)))))))))
  exact hFall.2 (projectDir c) hdir2

/-- C2: in non-dry-run mode any pre-flight violation (toolchain missing both
ways, git missing, or target directory already present) aborts before step 1
with one of the three descriptive pre-flight messages and a log holding only
the five echo lines — no step entry at all; and running the pipeline twice
with identical input, without removing the first run's output directory,
makes the second invocation fail at pre-flight with the
`Directory ... already exists` message and again an empty step log. -/
theorem preflight_abort_and_rerun (c : Ctx) (fs0 : FS) (hd : c.dryRun = false) :
    ((c.fvm = false ∧ c.flutter = false) ∨ c.git = false ∨
      fs0.pathExists (projectDir c) = true →
      ∃ f, pipelineRun c fs0 = .error f ∧
        f.msg ∈ [toolchainMsg, gitMsg, dirMsg (projectDir c)] ∧
        f.st.log = headerLines c ∧ f.st.log.filter isStepLine = []) ∧
    (∀ s1, pipelineRun c fs0 = .ok s1 →
      ∃ f, pipelineRun c s1.fs = .error f ∧ f.msg = dirMsg (projectDir c) ∧
        f.st.log = headerLines c ∧ f.st.log.filter isStepLine = []) := by
  constructor
  · intro hviol
    by_cases h1 : c.fvm = false ∧ c.flutter = false
    · have hp := (preflight_outcome c (headerSt c fs0) hd).1 h1.1 h1.2
      refine ⟨⟨toolchainMsg, addEff (.probe (str "flutter")) (headerSt c fs0)⟩,
        by simp [pipelineRun, hp, bindR], by simp, ?_, ?_⟩
      · show (headerSt c fs0).log = headerLines c
        exact headerSt_log c fs0 hd
      · show ((headerSt c fs0).log).filter isStepLine = []
        rw [headerSt_log c fs0 hd]
        exact headerLines_filter c
    · have hor : c.fvm = true ∨ c.flutter = true := by
        by_cases hf : c.fvm = true
        · exact Or.inl hf
        · by_cases hfl : c.flutter = true
          · exact Or.inr hfl
          · exact absurd ⟨by simpa using hf, by simpa using hfl⟩ h1
      by_cases hg : c.git = true
      · have hx : fs0.pathExists (projectDir c) = true := by
          rcases hviol with h | h | h
          · exact absurd h h1
          · rw [h] at hg
            exact absurd hg (by simp)
          · exact h
        obtain ⟨s2, hp2, hlog⟩ := (preflight_outcome c (headerSt c fs0) hd).2.2.1 hor hg
          (by rw [show (headerSt c fs0).fs = fs0 from headerSt_fs c fs0]; exact hx)
        refine ⟨⟨dirMsg (projectDir c), s2⟩, by simp [pipelineRun, hp2, bindR], by simp, ?_, ?_⟩
        · show s2.log = headerLines c
          rw [hlog]
          exact headerSt_log c fs0 hd
        · show s2.log.filter isStepLine = []
          rw [hlog, headerSt_log c fs0 hd]
          exact headerLines_filter c
      · have hgf : c.git = false := by simpa using hg
        obtain ⟨s2, hp2, hlog⟩ := (preflight_outcome c (headerSt c fs0) hd).2.1 hor hgf
        refine ⟨⟨gitMsg, s2⟩, by simp [pipelineRun, hp2, bindR], by simp, ?_, ?_⟩
        · show s2.log = headerLines c
          rw [hlog]
          exact headerSt_log c fs0 hd
        · show s2.log.filter isStepLine = []
          rw [hlog, headerSt_log c fs0 hd]
          exact headerLines_filter c
  · intro s1 hok
    unfold pipelineRun at hok
    obtain ⟨sp, hpre, hrun⟩ := bindR_ok _ _ _ hok
    obtain ⟨hor, hg, _, _, _⟩ := preflight_ok_inv c _ sp hd hpre
    have hdir : s1.fs.pathExists (projectDir c) = true := runSteps_ok_dir c sp s1 hd hrun
    obtain ⟨s2, hp2, hlog⟩ := (preflight_outcome c (headerSt c s1.fs) hd).2.2.1 hor hg
      (by rw [show (headerSt c s1.fs).fs = s1.fs from headerSt_fs c s1.fs]; exact hdir)
    refine ⟨⟨dirMsg (projectDir c), s2⟩, by simp [pipelineRun, hp2, bindR], rfl, ?_, ?_⟩
    · show s2.log = headerLines c
      rw [hlog]
      exact headerSt_log c s1.fs hd
    · show s2.log.filter isStepLine = []
      rw [hlog, headerSt_log c s1.fs hd]
      exact headerLines_filter c

/-- C2 witness: a toolchain violation aborts with only the echo lines
logged, and a complete successful run followed by an identical invocation
fails with the directory-exists message. -/
theorem preflight_abort_and_rerun_witness :
    (∃ f, pipelineRun { cRun with fvm := false, flutter := false } fsNone = .error f ∧
      f.msg ∈ [toolchainMsg, gitMsg,
        dirMsg (projectDir { cRun with fvm := false, flutter := false })] ∧
      f.st.log = headerLines { cRun with fvm := false, flutter := false } ∧
      f.st.log.filter isStepLine = []) ∧
    (∃ s1 f, pipelineRun cRun fsNone = .ok s1 ∧
      pipelineRun cRun s1.fs = .error f ∧ f.msg = dirMsg (projectDir cRun)) := by
  constructor
  · exact (preflight_abort_and_rerun { cRun with fvm := false, flutter := false } fsNone
      rfl).1 (Or.inl ⟨rfl, rfl⟩)
  · obtain ⟨s1, hs1⟩ : ∃ s1, pipelineRun cRun fsNone = .ok s1 := ⟨_, rfl⟩
    obtain ⟨f, hf1, hf2, _⟩ := (preflight_abort_and_rerun cRun fsNone rfl).2 s1 hs1
    exact ⟨s1, f, hs1, hf1, hf2⟩

-- ─── Path separation lemmas ──────────────────────────────────────────

theorem append_ne_append {a b : Str} (l : Str) (h : a ≠ b) : l ++ a ≠ l ++ b :=
  fun he => h (List.append_cancel_left he)

theorem append_ne_self (l m : Str) (hm : m ≠ []) : l ++ m ≠ l := by
  intro h
  apply hm
  have h2 : l ++ m = l ++ [] := by simpa using h
  exact List.append_cancel_left h2

theorem setPath_at (q : Str) (fs : FS) (p : Str) (h : p ≠ q) :
    (setPath q fs).pathExists p = fs.pathExists p := by
  simp [setPath, h]

theorem cloneApply_at_rel (c : Ctx) (fs : FS) (rel : Str) (hrel : rel ≠ []) :
    (cloneApply c fs).pathExists (projectDir c ++ (str "/" ++ rel)) =
      (c.cloned rel || fs.pathExists (projectDir c ++ (str "/" ++ rel))) := by
  show (if projectDir c ++ (str "/" ++ rel) = projectDir c then true else
    match dropLit (projectDir c ++ str "/") (projectDir c ++ (str "/" ++ rel)) with
    | some r => c.cloned r || fs.pathExists (projectDir c ++ (str "/" ++ rel))
    | none => fs.pathExists (projectDir c ++ (str "/" ++ rel))) = _
  rw [if_neg (append_ne_self _ _ (by
    intro hh
    apply hrel
    have := congrArg List.length hh
    simp [List.length_append] at this
    exact this.2))]
  rw [show dropLit (projectDir c ++ str "/") (projectDir c ++ (str "/" ++ rel)) = some rel from by
    rw [← List.append_assoc]
    exact dropLit_self _ _]

theorem githooks_ne_git (c : Ctx) : githooksPath c ≠ gitDirPath c :=
  append_ne_append (projectDir c) (by decide)

theorem flavorizr_ne_git (c : Ctx) : flavorizrPath c ≠ gitDirPath c :=
  append_ne_append (projectDir c) (by decide)

theorem cloneApply_git (c : Ctx) (fs : FS) :
    (cloneApply c fs).pathExists (gitDirPath c) =
      (c.cloned (str ".git") || fs.pathExists (gitDirPath c)) := by
  have h := cloneApply_at_rel c fs (str ".git") (by decide)
  rw [show projectDir c ++ (str "/" ++ str ".git") = gitDirPath c from rfl] at h
  exact h

theorem cloneApply_githooks (c : Ctx) (fs : FS) :
    (cloneApply c fs).pathExists (githooksPath c) =
      (c.cloned (str ".githooks") || fs.pathExists (githooksPath c)) := by
  have h := cloneApply_at_rel c fs (str ".githooks") (by decide)
  rw [show projectDir c ++ (str "/" ++ str ".githooks") = githooksPath c from rfl] at h
  exact h

theorem cloneApply_flavorizr (c : Ctx) (fs : FS) :
    (cloneApply c fs).pathExists (flavorizrPath c) =
      (c.cloned (str "flavorizr.yaml") || fs.pathExists (flavorizrPath c)) := by
  have h := cloneApply_at_rel c fs (str "flavorizr.yaml") (by decide)
  rw [show projectDir c ++ (str "/" ++ str "flavorizr.yaml") = flavorizrPath c from rfl] at h
  exact h

-- The run up to the step-6 abort when the template lacks flavorizr.yaml.
set_option maxHeartbeats 2000000 in
theorem runSteps_flavorizr_missing (c : Ctx) (sp : St) (hd : c.dryRun = false)
    (hora : ∀ k, c.oracle k = true)
    (hclone : c.cloned (str "flavorizr.yaml") = false)
    (hfs0 : sp.fs.pathExists (flavorizrPath c) = false) :
    ∃ d de, resErr (runSteps c sp) = some (str "flavorizr.yaml not found at " ++ flavorizrPath c) ∧
      (resSt (runSteps c sp)).log = sp.log ++ d ∧
      d.filter isStepLine = (stepHeaderList c).take 6 ∧
      d.getLast? = some (stepMsg 6 (str "Updating flavorizr.yaml")) ∧
      (resSt (runSteps c sp)).effects = sp.effects ++ de ∧
      (∀ e ∈ de, noFsEffect e) := by
  have e1 : (setPath (gitDirPath c) (cloneApply c sp.fs)).pathExists (githooksPath c) =
      (cloneApply c sp.fs).pathExists (githooksPath c) :=
    setPath_at _ _ _ (githooks_ne_git c)
  have e2 : (setPath (gitDirPath c) (cloneApply c sp.fs)).pathExists (flavorizrPath c) =
      (cloneApply c sp.fs).pathExists (flavorizrPath c) :=
    setPath_at _ _ _ (flavorizr_ne_git c)
  have g1 : isStepLine (str "✔ app_starter_plus ready") = false := by decide
  have g2 : isStepLine (str "✔ Template cloned") = false := by decide
  have g3 : isStepLine (str "✔ Git repository already exists") = false := by decide
  have g3b : isStepLine (str "✔ Git repository initialised") = false := by decide
  have g3c : isStepLine (str "✔ Git hooks configured (.githooks/)") = false := by decide
  have g3d : isStepLine (str "⚠ No .githooks/ directory found — skipping hook setup") = false := by decide
  have g4 : isStepLine (str "✔ Dependencies installed") = false := by decide
  have g5 : isStepLine (str "✔ Localisations generated") = false := by decide
  by_cases hg2 : (c.cloned (str ".git") || sp.fs.pathExists (gitDirPath c)) = true
  · by_cases hh2 : (c.cloned (str ".githooks") || sp.fs.pathExists (githooksPath c)) = true
    · refine ⟨[stepMsg 1 (str "Installing app_starter_plus"), str "✔ app_starter_plus ready",
        stepMsg 2 (str "Cloning template into " ++ c.name), str "✔ Template cloned",
        stepMsg 3 (str "Initialising Git repository"), str "✔ Git repository already exists",
        str "✔ Git hooks configured (.githooks/)",
        stepMsg 4 (str "Installing Flutter dependencies"), str "✔ Dependencies installed",
        stepMsg 5 (str "Generating localisations"), str "✔ Localisations generated",
        stepMsg 6 (str "Updating flavorizr.yaml")],
        [.spawn (fvmCmd c.fvm (str "dart")) (fvmArgs c.fvm (str "dart") activateArgs) none [],
         .spawn (fvmCmd c.fvm (str "dart")) (starterArgs c) (some c.parentDir) [],
         .spawn (str "git") [str "config", str "core.hooksPath", str ".githooks/"] (some (projectDir c)) [],
         .spawn (fvmCmd c.fvm (str "flutter")) (fvmArgs c.fvm (str "flutter") [str "pub", str "get"]) (some (projectDir c)) [],
         .spawn (fvmCmd c.fvm (str "flutter")) (fvmArgs c.fvm (str "flutter") [str "gen-l10n"]) (some (projectDir c)) []],
        ?_, ?_, ?_, ?_, ?_, ?_⟩
      · simp [runSteps, step1, step2, step3, step4, step5, step6, bindR, mapR, runCmd, okS,
          throwE, push, addEff, resErr, resSt, hd, hora, cloneApply_git, cloneApply_githooks,
          cloneApply_flavorizr, e1, e2, hg2, hh2, hclone, hfs0, List.append_assoc]
      · simp [runSteps, step1, step2, step3, step4, step5, step6, bindR, mapR, runCmd, okS,
          throwE, push, addEff, resErr, resSt, hd, hora, cloneApply_git, cloneApply_githooks,
          cloneApply_flavorizr, e1, e2, hg2, hh2, hclone, hfs0, List.append_assoc]
      · simp [List.filter_cons, stepHeaderList, List.take, g1, g2, g3, g3c, g4, g5,
          isl_s1, isl_s2, isl_s3, isl_s4, isl_s5, isl_s6]
      · rfl
      · simp [runSteps, step1, step2, step3, step4, step5, step6, bindR, mapR, runCmd, okS,
          throwE, push, addEff, resErr, resSt, hd, hora, cloneApply_git, cloneApply_githooks,
          cloneApply_flavorizr, e1, e2, hg2, hh2, hclone, hfs0, List.append_assoc]
      · intro e he
        fin_cases he <;> simp [noFsEffect]
    · refine ⟨[stepMsg 1 (str "Installing app_starter_plus"), str "✔ app_starter_plus ready",
        stepMsg 2 (str "Cloning template into " ++ c.name), str "✔ Template cloned",
        stepMsg 3 (str "Initialising Git repository"), str "✔ Git repository already exists",
        str "⚠ No .githooks/ directory found — skipping hook setup",
        stepMsg 4 (str "Installing Flutter dependencies"), str "✔ Dependencies installed",
        stepMsg 5 (str "Generating localisations"), str "✔ Localisations generated",
        stepMsg 6 (str "Updating flavorizr.yaml")],
        [.spawn (fvmCmd c.fvm (str "dart")) (fvmArgs c.fvm (str "dart") activateArgs) none [],
         .spawn (fvmCmd c.fvm (str "dart")) (starterArgs c) (some c.parentDir) [],
         .spawn (fvmCmd c.fvm (str "flutter")) (fvmArgs c.fvm (str "flutter") [str "pub", str "get"]) (some (projectDir c)) [],
         .spawn (fvmCmd c.fvm (str "flutter")) (fvmArgs c.fvm (str "flutter") [str "gen-l10n"]) (some (projectDir c)) []],
        ?_, ?_, ?_, ?_, ?_, ?_⟩
      · simp [runSteps, step1, step2, step3, step4, step5, step6, bindR, mapR, runCmd, okS,
          throwE, push, addEff, resErr, resSt, hd, hora, cloneApply_git, cloneApply_githooks,
          cloneApply_flavorizr, e1, e2, hg2, hh2, hclone, hfs0, List.append_assoc]
      · simp [runSteps, step1, step2, step3, step4, step5, step6, bindR, mapR, runCmd, okS,
          throwE, push, addEff, resErr, resSt, hd, hora, cloneApply_git, cloneApply_githooks,
          cloneApply_flavorizr, e1, e2, hg2, hh2, hclone, hfs0, List.append_assoc]
      · simp [List.filter_cons, stepHeaderList, List.take, g1, g2, g3, g3d, g4, g5,
          isl_s1, isl_s2, isl_s3, isl_s4, isl_s5, isl_s6]
      · rfl
      · simp [runSteps, step1, step2, step3, step4, step5, step6, bindR, mapR, runCmd, okS,
          throwE, push, addEff, resErr, resSt, hd, hora, cloneApply_git, cloneApply_githooks,
          cloneApply_flavorizr, e1, e2, hg2, hh2, hclone, hfs0, List.append_assoc]
      · intro e he
        fin_cases he <;> simp [noFsEffect]
  · by_cases hh2 : (c.cloned (str ".githooks") || sp.fs.pathExists (githooksPath c)) = true
    · refine ⟨[stepMsg 1 (str "Installing app_starter_plus"), str "✔ app_starter_plus ready",
        stepMsg 2 (str "Cloning template into " ++ c.name), str "✔ Template cloned",
        stepMsg 3 (str "Initialising Git repository"), str "✔ Git repository initialised",
        str "✔ Git hooks configured (.githooks/)",
        stepMsg 4 (str "Installing Flutter dependencies"), str "✔ Dependencies installed",
        stepMsg 5 (str "Generating localisations"), str "✔ Localisations generated",
        stepMsg 6 (str "Updating flavorizr.yaml")],
        [.spawn (fvmCmd c.fvm (str "dart")) (fvmArgs c.fvm (str "dart") activateArgs) none [],
         .spawn (fvmCmd c.fvm (str "dart")) (starterArgs c) (some c.parentDir) [],
         .spawn (str "git") [str "init"] (some (projectDir c)) [],
         .spawn (str "git") [str "config", str "core.hooksPath", str ".githooks/"] (some (projectDir c)) [],
         .spawn (fvmCmd c.fvm (str "flutter")) (fvmArgs c.fvm (str "flutter") [str "pub", str "get"]) (some (projectDir c)) [],
         .spawn (fvmCmd c.fvm (str "flutter")) (fvmArgs c.fvm (str "flutter") [str "gen-l10n"]) (some (projectDir c)) []],
        ?_, ?_, ?_, ?_, ?_, ?_⟩
      · simp [runSteps, step1, step2, step3, step4, step5, step6, bindR, mapR, runCmd, okS,
          throwE, push, addEff, resErr, resSt, hd, hora, cloneApply_git, cloneApply_githooks,
          cloneApply_flavorizr, e1, e2, hg2, hh2, hclone, hfs0, List.append_assoc]
      · simp [runSteps, step1, step2, step3, step4, step5, step6, bindR, mapR, runCmd, okS,
          throwE, push, addEff, resErr, resSt, hd, hora, cloneApply_git, cloneApply_githooks,
          cloneApply_flavorizr, e1, e2, hg2, hh2, hclone, hfs0, List.append_assoc]
      · simp [List.filter_cons, stepHeaderList, List.take, g1, g2, g3b, g3c, g4, g5,
          isl_s1, isl_s2, isl_s3, isl_s4, isl_s5, isl_s6]
      · rfl
      · simp [runSteps, step1, step2, step3, step4, step5, step6, bindR, mapR, runCmd, okS,
          throwE, push, addEff, resErr, resSt, hd, hora, cloneApply_git, cloneApply_githooks,
          cloneApply_flavorizr, e1, e2, hg2, hh2, hclone, hfs0, List.append_assoc]
      · intro e he
        fin_cases he <;> simp [noFsEffect]
    · refine ⟨[stepMsg 1 (str "Installing app_starter_plus"), str "✔ app_starter_plus ready",
        stepMsg 2 (str "Cloning template into " ++ c.name), str "✔ Template cloned",
        stepMsg 3 (str "Initialising Git repository"), str "✔ Git repository initialised",
        str "⚠ No .githooks/ directory found — skipping hook setup",
        stepMsg 4 (str "Installing Flutter dependencies"), str "✔ Dependencies installed",
        stepMsg 5 (str "Generating localisations"), str "✔ Localisations generated",
        stepMsg 6 (str "Updating flavorizr.yaml")],
        [.spawn (fvmCmd c.fvm (str "dart")) (fvmArgs c.fvm (str "dart") activateArgs) none [],
         .spawn (fvmCmd c.fvm (str "dart")) (starterArgs c) (some c.parentDir) [],
         .spawn (str "git") [str "init"] (some (projectDir c)) [],
         .spawn (fvmCmd c.fvm (str "flutter")) (fvmArgs c.fvm (str "flutter") [str "pub", str "get"]) (some (projectDir c)) [],
         .spawn (fvmCmd c.fvm (str "flutter")) (fvmArgs c.fvm (str "flutter") [str "gen-l10n"]) (some (projectDir c)) []],
        ?_, ?_, ?_, ?_, ?_, ?_⟩
      · simp [runSteps, step1, step2, step3, step4, step5, step6, bindR, mapR, runCmd, okS,
          throwE, push, addEff, resErr, resSt, hd, hora, cloneApply_git, cloneApply_githooks,
          cloneApply_flavorizr, e1, e2, hg2, hh2, hclone, hfs0, List.append_assoc]
      · simp [runSteps, step1, step2, step3, step4, step5, step6, bindR, mapR, runCmd, okS,
          throwE, push, addEff, resErr, resSt, hd, hora, cloneApply_git, cloneApply_githooks,
          cloneApply_flavorizr, e1, e2, hg2, hh2, hclone, hfs0, List.append_assoc]
      · simp [List.filter_cons, stepHeaderList, List.take, g1, g2, g3b, g3d, g4, g5,
          isl_s1, isl_s2, isl_s3, isl_s4, isl_s5, isl_s6]
      · rfl
      · simp [runSteps, step1, step2, step3, step4, step5, step6, bindR, mapR, runCmd, okS,
          throwE, push, addEff, resErr, resSt, hd, hora, cloneApply_git, cloneApply_githooks,
          cloneApply_flavorizr, e1, e2, hg2, hh2, hclone, hfs0, List.append_assoc]
      · intro e he
        fin_cases he <;> simp [noFsEffect]

/-- C3 counterexample: with a template that lacks `flavorizr.yaml`, the
returned log is NOT limited to entries through step 5's completion — it also
contains step 6's `[6/11] Updating flavorizr.yaml` start entry (pushed before
the existence check throws). -/
theorem flavorizr_abort_counterexample :
    ∃ f, pipelineRun cNoFlav fsNone = .error f ∧
      f.msg = str "flavorizr.yaml not found at " ++ flavorizrPath cNoFlav ∧
      stepMsg 6 (str "Updating flavorizr.yaml") ∈ f.st.log := by
  refine ⟨_, rfl, ?_, ?_⟩
  · decide
  · decide

/-- C3 (amended): in non-dry-run mode with a passing pre-flight and all
child processes succeeding, a missing `flavorizr.yaml` aborts the pipeline
with the structural-template message; the log's step entries are exactly the
headers of steps 1 through 6 (the completions of steps 1-5 plus step 6's
start entry, on which the log ends), no step beyond 6 is reached, and no
filesystem write or directory creation has been performed. -/
theorem flavorizr_missing_abort (c : Ctx) (fs0 : FS)
    (hd : c.dryRun = false)
    (hor : c.fvm = true ∨ c.flutter = true) (hg : c.git = true)
    (hnd : fs0.pathExists (projectDir c) = false)
    (hora : ∀ k, c.oracle k = true)
    (hclone : c.cloned (str "flavorizr.yaml") = false)
    (hfs0 : fs0.pathExists (flavorizrPath c) = false) :
    ∃ f, pipelineRun c fs0 = .error f ∧
      f.msg = str "flavorizr.yaml not found at " ++ flavorizrPath c ∧
      f.st.log.getLast? = some (stepMsg 6 (str "Updating flavorizr.yaml")) ∧
      f.st.log.filter isStepLine = (stepHeaderList c).take 6 ∧
      (∀ e ∈ f.st.effects, noFsEffect e) := by
  obtain ⟨sp, hp2, hplog, hpfs, hpeff⟩ := (preflight_outcome c (headerSt c fs0) hd).2.2.2 hor hg
    (by rw [show (headerSt c fs0).fs = fs0 from headerSt_fs c fs0]; exact hnd)
  have hfs0b : sp.fs.pathExists (flavorizrPath c) = false := by
    rw [hpfs, headerSt_fs]
    exact hfs0
  obtain ⟨d, de, h1, h2, h3, h4, h5, h6⟩ := runSteps_flavorizr_missing c sp hd hora hclone hfs0b
  have hpipe : pipelineRun c fs0 = runSteps c sp := by simp [pipelineRun, hp2, bindR]
  cases hrr : runSteps c sp with
  | ok s =>
    rw [hrr] at h1
    simp [resErr] at h1
  | error f =>
    rw [hrr] at h1 h2 h5
    simp only [resErr, Option.some.injEq] at h1
    simp only [resSt] at h2 h5
    refine ⟨f, by rw [hpipe, hrr], h1, ?_, ?_, ?_⟩
    · rw [h2, List.getLast?_append, h4]
      simp [Option.or]
    · rw [h2, List.filter_append, hplog, headerSt_log c fs0 hd, headerLines_filter, h3]
      simp
    · intro e he
      rw [h5] at he
      rcases List.mem_append.1 he with h | h
      · rcases hpeff with hx | hx
        · rw [hx, headerSt_effects] at h
          fin_cases h <;> simp [noFsEffect]
        · rw [hx] at h
          rcases List.mem_append.1 h with h | h
          · rw [headerSt_effects] at h
            fin_cases h <;> simp [noFsEffect]
          · rw [List.mem_singleton] at h
            subst h
            simp [noFsEffect]
      · exact h6 e h

/-- C3 witness: the amended claim at a concrete run whose template lacks
the descriptor file. -/
theorem flavorizr_missing_abort_witness :
    ∃ f, pipelineRun cNoFlav fsNone = .error f ∧
      f.msg = str "flavorizr.yaml not found at " ++ flavorizrPath cNoFlav ∧
      f.st.log.getLast? = some (stepMsg 6 (str "Updating flavorizr.yaml")) ∧
      f.st.log.filter isStepLine = (stepHeaderList cNoFlav).take 6 ∧
      (∀ e ∈ f.st.effects, noFsEffect e) :=
  flavorizr_missing_abort cNoFlav fsNone rfl (Or.inl rfl) rfl rfl (fun _ => rfl)
    (by decide) rfl
